import Mathlib

/-!
Verification of the BioDiscovery AI retrieval pipeline (backend/app).

This file gives a shallow embedding, in Lean 4, of the core pipeline code:

* `app/core/cache.py`        — the `LRUCache` class (`LRU` below);
* `app/graph/nodes.py`       — `node_encode`, `node_search`, `node_rank_enrich`
  and their helpers (`_apply_mmr`, `_build_graph`, `_collect_evidence`,
  `extract_metadata_for_bridge`, `_verify_and_label`, ...);
* `app/graph/workflow.py`    — `run_recommendation` / `build_response`.

Modelling conventions:

* Python floats are modelled as `ℚ`.  None of the properties proved below
  depends on floating-point rounding; the one genuinely floating-point
  quantity (the numpy cosine similarity inside `_apply_mmr`, which involves
  a square root) is kept as an abstract parameter `cos`.
* Python exceptions are modelled with `Except Unit`; a `try/except` block
  becomes a `match` on the `Except` value.
* External collaborators (Qdrant vector store, encoder, LLM client) are
  parameters (structures of functions), mirroring §6 of the specification.
* Python dictionaries with a known, fixed key set (the per-modality vector
  bundle, the Phase-1 result map) are structures with `Option` fields;
  dictionaries with open key sets are association lists.
* `hashlib.sha256(...).hexdigest()` is an abstract parameter
  `h : String → String`; the `[:16]` truncation is kept explicitly.
-/

set_option maxHeartbeats 1000000

namespace BioDiscovery

/-- Dense vectors (Python `List[float]`). -/
abbrev Vec := List ℚ

/-- Sparse vector `{"indices": [...], "values": [...]}`. -/
structure Sparse where
  indices : List ℕ := []
  values : List ℚ := []
deriving DecidableEq, Repr

/-- The `normalized_bridge` payload sub-record. -/
structure NormalizedBridge where
  genes : List String := []
  diseases : List String := []
  processes : List String := []
  pathways : List String := []
  keywords : List String := []
deriving DecidableEq, Repr

/-- The payload fields the core pipeline reads (loosely-typed Python dicts;
fields the code fetches with `payload.get(...)` are `Option`s, absent field
= `none`; `normalized_bridge` defaults to the empty record, matching
`payload.get("normalized_bridge", {})`). -/
structure Payload where
  protein_name : Option String := none
  gene_names : List String := []
  function : Option String := none
  title : Option String := none
  abstract : Option String := none
  caption : Option String := none
  description : Option String := none
  pdb_id : Option String := none
  uniprot_id : Option String := none
  pmid : Option String := none
  doi : Option String := none
  geo_id : Option String := none
  accession : Option String := none
  method : Option String := none
  normalized_bridge : NormalizedBridge := {}
deriving DecidableEq, Repr

/-- One search hit `{id, score, payload, collection}` as the pipeline
handles it (the `collection` key is stamped on by the search node). -/
structure SearchRes where
  id : String := ""
  score : ℚ := 0
  payload : Payload := {}
  collection : String := ""
deriving DecidableEq, Repr

-- ============================================================
-- app/core/cache.py — class LRUCache
-- ============================================================

/-- One cache entry: `{key, value, insertion_time, ttl}`
(`_cache[key]`, `_timestamps[key]`, `_ttls[key]` in the source). -/
structure CacheEntry (V : Type) where
  key : String
  value : V
  timestamp : ℚ
  ttl : Option ℤ
deriving DecidableEq, Repr

/-- `LRUCache` state.  `entries` is the `OrderedDict` in order: the head is
the least-recently-used entry (`next(iter(self._cache))`), the last element
is the most-recently-used. -/
structure LRU (V : Type) where
  maxSize : ℕ
  defaultTtl : Option ℤ
  entries : List (CacheEntry V) := []
deriving DecidableEq, Repr

namespace LRU

variable {V : Type}

/-- `LRUCache._remove(key)`. -/
def removeKey (c : LRU V) (k : String) : LRU V :=
  { c with entries := c.entries.filter (fun e => e.key ≠ k) }

/-- `LRUCache.get(key)` at wall-clock time `now` (`time.time()`).
Returns the looked-up value and the updated cache state
(TTL-expired entries are removed; hits are moved to the
most-recently-used end). -/
def get (c : LRU V) (k : String) (now : ℚ) : Option V × LRU V :=
  match c.entries.find? (fun e => e.key = k) with
  | none => (none, c)
  | some e =>
    match e.ttl with
    | some t =>
      if now - e.timestamp > (t : ℚ) then
        (none, c.removeKey k)
      else
        (some e.value, { c with entries := c.entries.filter (fun x => x.key ≠ k) ++ [e] })
    | none =>
      (some e.value, { c with entries := c.entries.filter (fun x => x.key ≠ k) ++ [e] })

/-- The `while len(self._cache) >= self.max_size` eviction loop of
`LRUCache.set`: drop the oldest (front) entry while the size is still at
or above capacity. -/
def evictToBelow (max : ℕ) : List (CacheEntry V) → List (CacheEntry V)
  | [] => []
  | e :: es => if es.length + 1 ≥ max then evictToBelow max es else e :: es

/-- `self._ttls[key] = ttl if ttl is not None else self.default_ttl`. -/
def effectiveTtl (c : LRU V) (ttl : Option ℤ) : Option ℤ :=
  match ttl with
  | some t => some t
  | none => c.defaultTtl

/-- `LRUCache.set(key, value, ttl)` at time `now`. -/
def set (c : LRU V) (k : String) (v : V) (now : ℚ) (ttl : Option ℤ) : LRU V :=
  let es1 := c.entries.filter (fun e => e.key ≠ k)
  let es2 := evictToBelow c.maxSize es1
  { c with
    entries := es2 ++ [{ key := k, value := v, timestamp := now,
                         ttl := c.effectiveTtl ttl }] }

/-- The key sequence, least-recently-used first. -/
def keys (c : LRU V) : List String := c.entries.map (·.key)

lemma mem_evictToBelow {max : ℕ} {l : List (CacheEntry V)} {x : CacheEntry V}
    (hx : x ∈ evictToBelow max l) : x ∈ l := by
  induction l with
  | nil => simp [evictToBelow] at hx
  | cons e es ih =>
    by_cases h : es.length + 1 ≥ max
    · simp only [evictToBelow, if_pos h] at hx
      exact List.mem_cons_of_mem _ (ih hx)
    · simpa [evictToBelow, if_neg h] using hx

lemma evictToBelow_of_lt {max : ℕ} {l : List (CacheEntry V)} (h : l.length < max) :
    evictToBelow max l = l := by
  cases l with
  | nil => rfl
  | cons e es =>
    simp only [evictToBelow]
    rw [if_neg]
    simp only [List.length_cons] at h
    omega

lemma evictToBelow_eq_tail {max : ℕ} {l : List (CacheEntry V)} (hlen : l.length = max) :
    evictToBelow max l = l.tail := by
  cases l with
  | nil => rfl
  | cons e es =>
    simp only [List.length_cons] at hlen
    simp only [evictToBelow]
    rw [if_pos (by omega), List.tail_cons]
    exact evictToBelow_of_lt (by omega)

lemma find?_set_self (c : LRU V) (k : String) (v : V) (now : ℚ) (ttl : Option ℤ) :
    ((c.set k v now ttl).entries.find? (fun e => e.key = k)) =
      some { key := k, value := v, timestamp := now, ttl := c.effectiveTtl ttl } := by
  unfold set
  simp only []
  rw [List.find?_append]
  have h1 : (evictToBelow c.maxSize (c.entries.filter fun e => e.key ≠ k)).find?
      (fun e => decide (e.key = k)) = none := by
    rw [List.find?_eq_none]
    intro x hx
    have hx' := mem_evictToBelow hx
    have hne := List.of_mem_filter hx'
    simp only [decide_not, Bool.not_eq_true', decide_eq_false_iff_not] at hne
    simp [hne]
  rw [h1]
  simp [List.find?]

lemma find?_removeKey (c : LRU V) (k : String) :
    ((c.removeKey k).entries.find? (fun e => e.key = k)) = none := by
  rw [List.find?_eq_none]
  intro x hx
  have hne := List.of_mem_filter hx
  simp only [decide_not, Bool.not_eq_true', decide_eq_false_iff_not] at hne
  simp [hne]

lemma find?_of_mem_nodupKeys {l : List (CacheEntry V)}
    (hnd : (l.map (·.key)).Nodup) {e : CacheEntry V} (he : e ∈ l) :
    l.find? (fun x => x.key = e.key) = some e := by
  induction l with
  | nil => cases he
  | cons a as ih =>
    rcases List.mem_cons.mp he with h | h
    · subst h
      simp [List.find?]
    · have hen : e.key ∈ as.map (·.key) := List.mem_map.mpr ⟨e, h, rfl⟩
      have hne : a.key ≠ e.key := by
        intro hEq
        apply (List.nodup_cons.mp hnd).1
        rw [show (fun x : CacheEntry V => x.key) a = e.key from hEq]
        exact hen
      simp only [List.find?, hne, decide_eq_true_eq, decide_False]
      exact ih (List.nodup_cons.mp hnd).2 h

end LRU


namespace LRU

variable {V : Type}

lemma entries_set_of_fresh_full (c : LRU V) (k' : String) (v : V) (now : ℚ)
    (ttl : Option ℤ) (hlen : c.entries.length = c.maxSize) (hfresh : k' ∉ c.keys) :
    (c.set k' v now ttl).entries =
      c.entries.tail ++ [{ key := k', value := v, timestamp := now,
                           ttl := c.effectiveTtl ttl }] := by
  have hfilter : c.entries.filter (fun e => e.key ≠ k') = c.entries := by
    rw [List.filter_eq_self]
    intro e he
    have hmem : e.key ∈ c.keys := List.mem_map.mpr ⟨e, he, rfl⟩
    simp only [decide_not, Bool.not_eq_true', decide_eq_false_iff_not]
    intro hEq
    exact hfresh (hEq ▸ hmem)
  simp only [set, hfilter, evictToBelow_eq_tail hlen]

lemma tail_map_key (c : LRU V) : c.entries.tail.map (·.key) = c.keys.tail := by
  cases h : c.entries with
  | nil => simp [keys, h]
  | cons e es => simp [keys, h]

end LRU

-- ============================================================
-- CLAIM C8 — LRU cache contract
-- ============================================================

/-- Claim C8: LRU cache contract.  (1) `set(key, v)` immediately followed by
`get(key)` returns `v` (whenever the effective TTL is not negative);
(2) once an entry's TTL has elapsed, `get(key)` misses and the entry is
removed by that read; (3) when an insert into a full cache uses a fresh key,
exactly the least-recently-used key (the head of the recency order, which
every hit refreshes) is evicted and misses, while all other keys remain hits. -/
theorem C8_lru_cache_contract :
    (∀ (V : Type) (c : LRU V) (k : String) (v : V) (now : ℚ) (ttl : Option ℤ),
        (∀ t, c.effectiveTtl ttl = some t → 0 ≤ t) →
        ((c.set k v now ttl).get k now).1 = some v) ∧
    (∀ (V : Type) (c : LRU V) (k : String) (v : V) (now now2 : ℚ) (t : ℤ),
        now2 - now > (t : ℚ) →
        ((c.set k v now (some t)).get k now2).1 = none ∧
        (((c.set k v now (some t)).get k now2).2.entries.find?
          (fun e => e.key = k)) = none) ∧
    (∀ (V : Type) (c : LRU V) (k' : String) (v : V) (now : ℚ) (ttl : Option ℤ),
        c.entries.length = c.maxSize →
        c.keys.Nodup → k' ∉ c.keys →
        (c.set k' v now ttl).keys = c.keys.tail ++ [k'] ∧
        (∀ e, c.entries.head? = some e →
          ((c.set k' v now ttl).get e.key now).1 = none) ∧
        (∀ e, e ∈ c.entries.tail →
          (e.ttl = none ∨ ∃ t, e.ttl = some t ∧ now - e.timestamp ≤ (t : ℚ)) →
          ((c.set k' v now ttl).get e.key now).1 = some e.value)) := by
  refine ⟨?_, ?_, ?_⟩
  · intro V c k v now ttl ht
    simp only [LRU.get, LRU.find?_set_self]
    cases hef : c.effectiveTtl ttl with
    | none => simp [hef]
    | some t =>
      have h0 : (0 : ℚ) ≤ (t : ℚ) := by exact_mod_cast ht t hef
      have hnot : ¬ (now - now > (t : ℚ)) := by
        rw [sub_self]
        intro hc
        linarith
      simp only [hef]
      rw [if_neg hnot]
  · intro V c k v now now2 t hgt
    have hef : c.effectiveTtl (some t) = some t := rfl
    constructor
    · simp only [LRU.get, LRU.find?_set_self]
      simp [hef, hgt]
    · simp only [LRU.get, LRU.find?_set_self]
      simp only [hef, if_pos hgt]
      exact LRU.find?_removeKey _ k
  · intro V c k' v now ttl hlen hnd hfresh
    have hset := LRU.entries_set_of_fresh_full c k' v now ttl hlen hfresh
    refine ⟨?_, ?_, ?_⟩
    · simp only [LRU.keys, hset, List.map_append, List.map_cons, List.map_nil]
      rw [LRU.tail_map_key]
      rfl
    · intro e he
      have hcons : ∃ es, c.entries = e :: es := by
        cases hE : c.entries with
        | nil => rw [hE] at he; cases he
        | cons a as =>
          rw [hE] at he
          simp only [List.head?_cons, Option.some.injEq] at he
          exact ⟨as, by rw [he]⟩
      obtain ⟨es, hE⟩ := hcons
      have hkeys : c.keys = e.key :: es.map (·.key) := by simp [LRU.keys, hE]
      have hnotail : e.key ∉ es.map (·.key) := by
        rw [hkeys] at hnd
        exact (List.nodup_cons.mp hnd).1
      have hnek : k' ≠ e.key := by
        intro hEq
        apply hfresh
        rw [hkeys, hEq]
        exact List.mem_cons_self _ _
      have hfind : ((c.set k' v now ttl).entries.find? (fun x => x.key = e.key)) = none := by
        rw [hset, List.find?_eq_none]
        intro x hx
        rcases List.mem_append.mp hx with hx1 | hx1
        · rw [hE, List.tail_cons] at hx1
          have : x.key ∈ es.map (·.key) := List.mem_map.mpr ⟨x, hx1, rfl⟩
          simp only [decide_eq_true_eq]
          intro hEq
          exact hnotail (hEq ▸ this)
        · simp only [List.mem_singleton] at hx1
          subst hx1
          simp only [decide_eq_true_eq]
          exact hnek
      simp [LRU.get, hfind]
    · intro e he httl
      have htailnd : (c.entries.tail.map (·.key)).Nodup := by
        rw [LRU.tail_map_key]
        exact hnd.tail
      have hf1 : c.entries.tail.find? (fun x => x.key = e.key) = some e :=
        LRU.find?_of_mem_nodupKeys htailnd he
      have hfind : ((c.set k' v now ttl).entries.find? (fun x => x.key = e.key)) = some e := by
        rw [hset, List.find?_append, hf1]
        rfl
      simp only [LRU.get, hfind]
      rcases httl with h0 | ⟨t, ht, hle⟩
      · simp [h0]
      · have hnot : ¬ (now - e.timestamp > (t : ℚ)) := not_lt.mpr hle
        simp [ht, hnot]

/-- Concrete witness for C8: a two-entry cache of capacity 2 over `ℕ`. -/
def c8Cache : LRU ℕ :=
  { maxSize := 2, defaultTtl := none,
    entries := [{ key := "a", value := 1, timestamp := 0, ttl := none },
                { key := "b", value := 2, timestamp := 0, ttl := none }] }

/-- Witness for C8, discharging each hypothesis at concrete inputs: round
trip, TTL expiry, and eviction of exactly the LRU key "a" with "b" kept. -/
theorem C8_lru_cache_contract_witness :
    ((c8Cache.set "x" 7 1 none).get "x" 1).1 = some 7 ∧
    ((c8Cache.set "x" 7 1 (some 5)).get "x" 7).1 = none ∧
    (c8Cache.set "x" 7 1 none).keys = ["b", "x"] ∧
    ((c8Cache.set "x" 7 1 none).get "a" 1).1 = none ∧
    ((c8Cache.set "x" 7 1 none).get "b" 1).1 = some 2 := by
  obtain ⟨h1, h2, h3⟩ := C8_lru_cache_contract
  have hc3 := h3 ℕ c8Cache "x" 7 1 none (by decide) (by decide) (by decide)
  refine ⟨?_, ?_, ?_, ?_, ?_⟩
  · exact h1 ℕ c8Cache "x" 7 1 none (by intro t ht; simp [LRU.effectiveTtl, c8Cache] at ht)
  · exact (h2 ℕ c8Cache "x" 7 1 7 5 (by norm_num)).1
  · exact hc3.1.trans (by decide)
  · exact hc3.2.1 { key := "a", value := 1, timestamp := 0, ttl := none } rfl
  · exact hc3.2.2 { key := "b", value := 2, timestamp := 0, ttl := none }
      (by decide) (Or.inl rfl)

-- ============================================================
-- app/graph/nodes.py — _apply_mmr and MMR_LAMBDA
-- ============================================================

/-- Python `round(q, n)`.  (CPython rounds half to even on binary floats;
no property below depends on behaviour at exact midpoints, so we use
Mathlib's `round` on exact rationals.) -/
def pyRound (ndigits : ℕ) (q : ℚ) : ℚ :=
  ((round (q * 10 ^ ndigits) : ℤ) : ℚ) / 10 ^ ndigits

/-- The `MMR_LAMBDA` table combined with the lookup
`MMR_LAMBDA.get(alignment, 0.7)` performed by `node_rank_enrich`
(unknown labels fall back to the 0.7 default; the `None` key maps to 0.7). -/
def mmrLambda : Option String → ℚ
  | some s =>
    if s = "aligned" then 7/10
    else if s = "partial" then 1/2
    else if s = "divergent" then 3/10
    else 7/10
  | none => 7/10

/-- A result record after MMR selection: the original dict plus the
`diversity_score`, `novelty_score`, `final_score` keys added by
`_apply_mmr` (and the `mmr_rank` key added afterwards by
`node_rank_enrich`). -/
structure Scored where
  base : SearchRes
  diversity_score : ℚ
  novelty_score : ℚ
  final_score : ℚ
  mmr_rank : ℕ := 0
deriving DecidableEq, Repr

/-- Python falsy-aware `a or b` for optional strings. -/
def orFalsy (a : Option String) (b : String) : String :=
  match a with
  | some s => if s = "" then b else s
  | none => b

/-- The display text `_apply_mmr` embeds for a candidate:
`payload.get("protein_name") or payload.get("title") or payload.get("caption", "")`. -/
def mmrNameText (p : Payload) : String :=
  orFalsy p.protein_name (orFalsy p.title (p.caption.getD ""))

/-- The `vectors` dict built at the top of `_apply_mmr`: for each result
with a non-empty display name, encode its first 100 characters; keep the
vector only if it is non-empty with more than 10 entries.  `enc` is
`encoder.encode_text` (whose exceptions propagate, as in the source).
Later entries overwrite earlier ones for a duplicated id, as in a dict. -/
def buildVectors (enc : String → Except Unit Vec) :
    List SearchRes → Except Unit (List (String × Vec))
  | [] => .ok []
  | r :: rs => do
    let text := mmrNameText r.payload
    if text ≠ "" then
      let v ← enc (text.take 100)
      let rest ← buildVectors enc rs
      pure (if v ≠ [] ∧ v.length > 10 then (r.id, v) :: rest else rest)
    else
      buildVectors enc rs

/-- Dict lookup with last-write-wins semantics. -/
def vecsLookup (l : List (String × Vec)) (k : String) : Option Vec :=
  (l.reverse.find? (fun p => p.1 = k)).map (·.2)

/-- `max_sim` for one candidate against the already-selected list:
starts at 0 and takes the max of `cos` over every selected item whose id
(and the candidate's id) are in the vectors dict.  `cos` abstracts the
numpy cosine `dot/(‖·‖‖·‖ + 1e-8)` (floating point). -/
def maxSim (vecs : List (String × Vec)) (cos : Vec → Vec → ℚ)
    (selected : List Scored) (cand : SearchRes) : ℚ :=
  match vecsLookup vecs cand.id with
  | none => 0
  | some cv =>
    selected.foldl
      (fun m sel =>
        match vecsLookup vecs sel.base.id with
        | none => m
        | some sv => max m (cos cv sv))
      0

/-- The MMR objective `mmr = mmr_lambda * rel - (1 - mmr_lambda) * max_sim`. -/
def mmrScore (lam : ℚ) (vecs : List (String × Vec)) (cos : Vec → Vec → ℚ)
    (selected : List Scored) (cand : SearchRes) : ℚ :=
  lam * cand.score - (1 - lam) * maxSim vecs cos selected cand

/-- The inner argmax scan of `_apply_mmr` (`best_mmr = -inf; ... if mmr >
best_mmr`): returns the earliest candidate with the strictly greatest
objective value, together with the remaining candidates in their original
order (Python pops the chosen index). -/
def selectBest (f : α → ℚ) (a : α) (l : List α) : α × List α :=
  match l with
  | [] => (a, [])
  | c :: cs =>
    let p := selectBest f c cs
    if f p.1 > f a then (p.1, a :: p.2) else (a, c :: cs)

lemma selectBest_snd_length (f : α → ℚ) (a : α) (l : List α) :
    (selectBest f a l).2.length = l.length := by
  induction l generalizing a with
  | nil => rfl
  | cons c cs ih =>
    simp only [selectBest]
    by_cases h : f (selectBest f c cs).1 > f a
    · simp only [if_pos h, List.length_cons, ih]
    · simp only [if_neg h]

lemma selectBest_perm (f : α → ℚ) (a : α) (l : List α) :
    ((selectBest f a l).1 :: (selectBest f a l).2).Perm (a :: l) := by
  induction l generalizing a with
  | nil => rfl
  | cons c cs ih =>
    simp only [selectBest]
    by_cases h : f (selectBest f c cs).1 > f a
    · simp only [if_pos h]
      exact (List.Perm.swap _ _ _).trans ((ih c).cons a)
    · simp only [if_neg h]
      exact List.Perm.refl _

/-- The `while` selection loop of `_apply_mmr`, with an explicit fuel that
always equals the number of remaining candidates (each pass of the Python
loop pops exactly one candidate, so the fuel is exact, not a truncation:
see `mmrLoop`).  `kmin` is the fixed bound `min(target_k, len(results))`;
each pass selects the argmax candidate, stamps its
`diversity_score`/`novelty_score`/`final_score`, and appends it. -/
def mmrLoopF (lam : ℚ) (vecs : List (String × Vec)) (cos : Vec → Vec → ℚ)
    (kmin : ℕ) : ℕ → List Scored → List SearchRes → List Scored
  | _, selected, [] => selected
  | 0, selected, _ :: _ => selected
  | Nat.succ fuel, selected, c :: cs =>
    if selected.length < kmin then
      let p := selectBest (mmrScore lam vecs cos selected) c cs
      let ms := maxSim vecs cos selected p.1
      let chosen : Scored :=
        { base := p.1,
          diversity_score := pyRound 4 (1 - ms),
          novelty_score := pyRound 4 (p.1.score * (1 - ms)),
          final_score := pyRound 4 (mmrScore lam vecs cos selected p.1) }
      mmrLoopF lam vecs cos kmin fuel (selected ++ [chosen]) p.2
    else selected

/-- The `while` selection loop of `_apply_mmr` (fuel instantiated to the
candidate count; `selectBest_snd_length` keeps the fuel exact on every
recursive call). -/
def mmrLoop (lam : ℚ) (vecs : List (String × Vec)) (cos : Vec → Vec → ℚ)
    (kmin : ℕ) (selected : List Scored) (cands : List SearchRes) : List Scored :=
  mmrLoopF lam vecs cos kmin cands.length selected cands

/-- First selected item of `_apply_mmr`: `results[0].copy()` with
`diversity_score = 1.0`, `novelty_score = final_score = round(score, 4)`. -/
def mmrFirst (r : SearchRes) : Scored :=
  { base := r, diversity_score := 1,
    novelty_score := pyRound 4 r.score, final_score := pyRound 4 r.score }

/-- `_apply_mmr(results, mmr_lambda, target_k, encoder)`. -/
def applyMMR (enc : String → Except Unit Vec) (cos : Vec → Vec → ℚ)
    (lam : ℚ) (targetK : ℕ) (results : List SearchRes) :
    Except Unit (List Scored) :=
  match results with
  | [] => .ok []
  | r0 :: rest => do
    let vecs ← buildVectors enc results
    pure (mmrLoop lam vecs cos (min targetK results.length) [mmrFirst r0] rest)

lemma mmrLoopF_base_perm (lam : ℚ) (vecs : List (String × Vec)) (cos : Vec → Vec → ℚ)
    (kmin : ℕ) :
    ∀ fuel (selected : List Scored) (cands : List SearchRes), cands.length = fuel →
      selected.length + cands.length ≤ kmin →
      ((mmrLoopF lam vecs cos kmin fuel selected cands).map Scored.base).Perm
        (selected.map Scored.base ++ cands) := by
  intro fuel
  induction fuel with
  | zero =>
    intro selected cands hlen hle
    have hnil : cands = [] := List.length_eq_zero.mp hlen
    subst hnil
    simp [mmrLoopF]
  | succ n ih =>
    intro selected cands hlen hle
    match cands with
    | [] => simp [mmrLoopF]
    | c :: cs =>
      have hlt : selected.length < kmin := by
        simp only [List.length_cons] at hle
        omega
      rw [mmrLoopF]
      rw [if_pos hlt]
      have hlen2 : (selectBest (mmrScore lam vecs cos selected) c cs).2.length = cs.length :=
        selectBest_snd_length _ _ _
      have hrec := ih
        (selected ++
          [{ base := (selectBest (mmrScore lam vecs cos selected) c cs).1,
             diversity_score := pyRound 4 (1 - maxSim vecs cos selected
               (selectBest (mmrScore lam vecs cos selected) c cs).1),
             novelty_score := pyRound 4
               ((selectBest (mmrScore lam vecs cos selected) c cs).1.score *
                 (1 - maxSim vecs cos selected
                   (selectBest (mmrScore lam vecs cos selected) c cs).1)),
             final_score := pyRound 4 (mmrScore lam vecs cos selected
               (selectBest (mmrScore lam vecs cos selected) c cs).1) }])
        (selectBest (mmrScore lam vecs cos selected) c cs).2
        (by simp only [List.length_cons] at hlen; omega)
        (by
          simp only [List.length_append, List.length_singleton, hlen2]
          simp only [List.length_cons] at hle
          omega)
      refine hrec.trans ?_
      rw [List.map_append]
      simp only [List.map_cons, List.map_nil]
      rw [List.append_assoc]
      apply List.Perm.append_left
      simpa using (selectBest_perm (mmrScore lam vecs cos selected) c cs)

lemma mmrLoop_base_perm (lam : ℚ) (vecs : List (String × Vec)) (cos : Vec → Vec → ℚ)
    (kmin : ℕ) (selected : List Scored) (cands : List SearchRes)
    (hle : selected.length + cands.length ≤ kmin) :
    ((mmrLoop lam vecs cos kmin selected cands).map Scored.base).Perm
      (selected.map Scored.base ++ cands) :=
  mmrLoopF_base_perm lam vecs cos kmin cands.length selected cands rfl hle

-- ============================================================
-- CLAIM C7 — MMR idempotence
-- ============================================================

/-- Claim C7: MMR idempotence.  Re-running `_apply_mmr` on a list of `k`
items with `target_k = k` returns the same set of items (as a permutation
of the input; the order may only change by the documented earliest-argmax
tie-break). -/
theorem C7_mmr_idempotence (enc : String → Except Unit Vec)
    (cos : Vec → Vec → ℚ) (lam : ℚ) (results : List SearchRes)
    (out : List Scored)
    (h : applyMMR enc cos lam results.length results = .ok out) :
    (out.map Scored.base).Perm results := by
  match results with
  | [] =>
    simp only [applyMMR, Except.ok.injEq] at h
    rw [← h]
    simp
  | r0 :: rest =>
    simp only [applyMMR] at h
    cases hv : buildVectors enc (r0 :: rest) with
    | error e =>
      rw [hv] at h
      cases h
    | ok vecs =>
      rw [hv] at h
      have hout : mmrLoop lam vecs cos
          (min (r0 :: rest).length (r0 :: rest).length) [mmrFirst r0] rest = out := by
        simpa using h
      rw [← hout]
      have := mmrLoop_base_perm lam vecs cos
        (min (r0 :: rest).length (r0 :: rest).length) [mmrFirst r0] rest
        (by simp; omega)
      simpa [mmrFirst] using this

/-- Concrete two-item candidate list for the C7 witness. -/
def c7ResA : SearchRes := { id := "a", score := 3/10 }

/-- Second concrete candidate (top score) for the C7 witness. -/
def c7ResB : SearchRes := { id := "b", score := 9/10 }

/-- Concrete candidate list for the C7 witness. -/
def c7Results : List SearchRes := [c7ResA, c7ResB]

/-- Concrete encoder for the C7 witness (returns an empty vector, so the
similarity table stays empty, as when display names are absent). -/
def c7Enc : String → Except Unit Vec := fun _ => Except.ok []

/-- Concrete cosine stand-in for the C7 witness. -/
def c7Cos : Vec → Vec → ℚ := fun _ _ => 0

/-- Concrete MMR output for the C7 witness. -/
def c7Out : List Scored :=
  [{ base := c7ResA, diversity_score := 1, novelty_score := 3/10, final_score := 3/10 },
   { base := c7ResB, diversity_score := 1, novelty_score := 9/10, final_score := 63/100 }]

/-- Witness for C7: a concrete 2-item run with `target_k = 2` returns a
permutation of the input items. -/
theorem C7_mmr_idempotence_witness :
    applyMMR c7Enc c7Cos (7/10) c7Results.length c7Results = Except.ok c7Out ∧
    (c7Out.map Scored.base).Perm c7Results := by
  have h : applyMMR c7Enc c7Cos (7/10) c7Results.length c7Results = Except.ok c7Out := by
    norm_num [applyMMR, c7Results, c7Enc, c7Cos, c7Out, c7ResA, c7ResB, buildVectors,
      mmrNameText, orFalsy, mmrLoop, mmrLoopF, selectBest, maxSim, mmrScore, vecsLookup,
      pyRound, mmrFirst, round_eq]
  exact ⟨h, C7_mmr_idempotence c7Enc c7Cos (7/10) c7Results c7Out h⟩

lemma mmrLoopF_eq_append (lam : ℚ) (vecs : List (String × Vec)) (cos : Vec → Vec → ℚ)
    (kmin : ℕ) :
    ∀ fuel (selected : List Scored) (cands : List SearchRes),
      ∃ l, mmrLoopF lam vecs cos kmin fuel selected cands = selected ++ l := by
  intro fuel
  induction fuel with
  | zero =>
    intro selected cands
    match cands with
    | [] => exact ⟨[], by simp [mmrLoopF]⟩
    | c :: cs => exact ⟨[], by simp [mmrLoopF]⟩
  | succ n ih =>
    intro selected cands
    match cands with
    | [] => exact ⟨[], by simp [mmrLoopF]⟩
    | c :: cs =>
      by_cases hlt : selected.length < kmin
      · obtain ⟨l, hl⟩ := ih
          (selected ++
            [{ base := (selectBest (mmrScore lam vecs cos selected) c cs).1,
               diversity_score := pyRound 4 (1 - maxSim vecs cos selected
                 (selectBest (mmrScore lam vecs cos selected) c cs).1),
               novelty_score := pyRound 4
                 ((selectBest (mmrScore lam vecs cos selected) c cs).1.score *
                   (1 - maxSim vecs cos selected
                     (selectBest (mmrScore lam vecs cos selected) c cs).1)),
               final_score := pyRound 4 (mmrScore lam vecs cos selected
                 (selectBest (mmrScore lam vecs cos selected) c cs).1) }])
          (selectBest (mmrScore lam vecs cos selected) c cs).2
        simp only [mmrLoopF, if_pos hlt]
        rw [hl, List.append_assoc]
        exact ⟨_, rfl⟩
      · exact ⟨[], by rw [mmrLoopF, if_neg hlt]; simp⟩

-- ============================================================
-- CLAIM C6 — MMR first item, boundary cases, and λ table
-- ============================================================

/-- Encoder for the C6 counterexample (no display names are present, so it
is never consulted for a usable vector). -/
def c6Enc : String → Except Unit Vec := fun _ => Except.ok []

/-- Cosine stand-in for the C6 counterexample. -/
def c6Cos : Vec → Vec → ℚ := fun _ _ => 0

/-- Low-scored first candidate of the C6 counterexample. -/
def c6ResA : SearchRes := { id := "low", score := 1/10 }

/-- Top-scored second candidate of the C6 counterexample. -/
def c6ResB : SearchRes := { id := "top", score := 9/10 }

/-- An (unsorted) candidate pool whose first element is not the top-scored
candidate. -/
def c6List : List SearchRes := [c6ResA, c6ResB]

/-- Output of `_apply_mmr` on `c6List`. -/
def c6Out : List Scored :=
  [{ base := c6ResA, diversity_score := 1, novelty_score := 1/10, final_score := 1/10 },
   { base := c6ResB, diversity_score := 1, novelty_score := 9/10, final_score := 63/100 }]

/-- Counterexample for C6 as frozen: on a candidate list that is not sorted
by score, `_apply_mmr` selects the literal first list element
(`results[0]`), score 1/10, even though the pool contains a candidate with
score 9/10 — so "the first selected item is the top-scored candidate" fails
for arbitrary candidate lists. -/
theorem C6_counterexample :
    applyMMR c6Enc c6Cos (7/10) 2 c6List = Except.ok c6Out ∧
    (c6Out.head?.map fun s => s.base.score) = some (1/10) ∧
    c6ResB ∈ c6List ∧ c6ResB.score = 9/10 ∧ ¬ ((9 : ℚ)/10 ≤ 1/10) := by
  refine ⟨?_, by norm_num [c6Out, c6ResA], by simp [c6List], rfl, by norm_num⟩
  norm_num [applyMMR, c6List, c6Enc, c6Cos, c6Out, c6ResA, c6ResB, buildVectors,
    mmrNameText, orFalsy, mmrLoop, mmrLoopF, selectBest, maxSim, mmrScore, vecsLookup,
    pyRound, mmrFirst, round_eq]

/-- Claim C6, amended as the counterexample forces: `_apply_mmr` on an empty
pool yields an empty output; on a one-item pool yields that item with
`diversity_score` exactly 1.0; on any non-empty pool the first selected item
is the first pool element with `diversity_score` exactly 1.0 — which is the
top-scored candidate whenever the pool is ordered by non-increasing score,
as retrieval result lists are; and the λ is drawn from the Stage-2 alignment
label: 0.7 for `aligned` or no alignment (Case 1), 0.5 for `partial`, 0.3
for `divergent`. -/
theorem C6_mmr_first_boundary_lambda :
    (mmrLambda (some "aligned") = 7/10 ∧ mmrLambda (some "partial") = 1/2 ∧
      mmrLambda (some "divergent") = 3/10 ∧ mmrLambda none = 7/10) ∧
    (∀ (enc : String → Except Unit Vec) (cos : Vec → Vec → ℚ) (lam : ℚ) (k : ℕ),
      applyMMR enc cos lam k [] = Except.ok []) ∧
    (∀ (enc : String → Except Unit Vec) (cos : Vec → Vec → ℚ) (lam : ℚ) (k : ℕ)
        (r : SearchRes) (out : List Scored),
      applyMMR enc cos lam k [r] = Except.ok out →
      out = [mmrFirst r] ∧ (mmrFirst r).diversity_score = 1) ∧
    (∀ (enc : String → Except Unit Vec) (cos : Vec → Vec → ℚ) (lam : ℚ) (k : ℕ)
        (r : SearchRes) (rs : List SearchRes) (out : List Scored),
      applyMMR enc cos lam k (r :: rs) = Except.ok out →
      out.head? = some (mmrFirst r) ∧ (mmrFirst r).diversity_score = 1 ∧
      (List.Sorted (fun a b : SearchRes => b.score ≤ a.score) (r :: rs) →
        ∀ x ∈ r :: rs, x.score ≤ (mmrFirst r).base.score)) := by
  refine ⟨⟨rfl, rfl, rfl, rfl⟩, fun enc cos lam k => rfl, ?_, ?_⟩
  · intro enc cos lam k r out h
    simp only [applyMMR] at h
    cases hv : buildVectors enc [r] with
    | error e => rw [hv] at h; cases h
    | ok vecs =>
      rw [hv] at h
      refine ⟨?_, rfl⟩
      have : mmrLoop lam vecs cos (min k [r].length) [mmrFirst r] [] = out := by
        simpa using h
      rw [← this]
      rfl
  · intro enc cos lam k r rs out h
    simp only [applyMMR] at h
    cases hv : buildVectors enc (r :: rs) with
    | error e => rw [hv] at h; cases h
    | ok vecs =>
      rw [hv] at h
      have hout : mmrLoop lam vecs cos (min k (r :: rs).length) [mmrFirst r] rs = out := by
        simpa using h
      obtain ⟨l, hl⟩ := mmrLoopF_eq_append lam vecs cos (min k (r :: rs).length)
        rs.length [mmrFirst r] rs
      refine ⟨?_, rfl, ?_⟩
      · rw [← hout]
        unfold mmrLoop
        rw [hl]
        rfl
      · intro hsorted x hx
        rcases List.mem_cons.mp hx with hx1 | hx1
        · rw [hx1]
          exact le_rfl
        · exact (List.sorted_cons.mp hsorted).1 x hx1

/-- Witness for C6 (amended): a concrete sorted two-item pool; the first
selected item is the first (and top-scored) element with diversity 1.0. -/
theorem C6_mmr_first_boundary_lambda_witness :
    (applyMMR c6Enc c6Cos (7/10) 2 [c6ResB] = Except.ok [mmrFirst c6ResB] ∧
      (mmrFirst c6ResB).diversity_score = 1) ∧
    ((applyMMR c6Enc c6Cos (7/10) 2 [c6ResB, c6ResA]).map (fun l => l.head?) =
      Except.ok (some (mmrFirst c6ResB)) ∧
      ∀ x ∈ [c6ResB, c6ResA], x.score ≤ (mmrFirst c6ResB).base.score) := by
  have hsingle : applyMMR c6Enc c6Cos (7/10) 2 [c6ResB] = Except.ok [mmrFirst c6ResB] := by
    norm_num [applyMMR, c6Enc, c6Cos, c6ResB, buildVectors, mmrNameText, orFalsy,
      mmrLoop, mmrLoopF, mmrFirst, pyRound, round_eq]
  have h1 := (C6_mmr_first_boundary_lambda.2.2.1 c6Enc c6Cos (7/10) 2 c6ResB
    [mmrFirst c6ResB] hsingle)
  have hpair : applyMMR c6Enc c6Cos (7/10) 2 [c6ResB, c6ResA] =
      Except.ok [mmrFirst c6ResB,
        { base := c6ResA, diversity_score := 1, novelty_score := 1/10,
          final_score := 7/100 }] := by
    norm_num [applyMMR, c6Enc, c6Cos, c6ResA, c6ResB, buildVectors, mmrNameText,
      orFalsy, mmrLoop, mmrLoopF, selectBest, maxSim, mmrScore, vecsLookup,
      mmrFirst, pyRound, round_eq]
  have h2 := (C6_mmr_first_boundary_lambda.2.2.2 c6Enc c6Cos (7/10) 2 c6ResB [c6ResA]
    _ hpair)
  refine ⟨⟨hsingle, h1.2⟩, ?_, ?_⟩
  · rw [hpair]
    simp [h2.1]
    exact h2.1.symm ▸ rfl
  · exact h2.2.2 (by
      constructor
      · intro b hb
        simp only [List.mem_singleton] at hb
        subst hb
        norm_num [c6ResA, c6ResB]
      · simp)

-- ============================================================
-- app/graph/nodes.py — _build_graph
-- ============================================================

/-- Python `int(q)` (truncation toward zero). -/
def pyInt (q : ℚ) : ℤ := if q < 0 then ⌈q⌉ else ⌊q⌋

/-- Python `str.rstrip("s")`: drop every trailing `'s'`. -/
def rstripS (s : String) : String :=
  String.mk ((s.data.reverse.dropWhile (fun ch => ch = 's')).reverse)

/-- One relation record `{"type", "strength", "items"}` of a graph edge. -/
structure GraphRelation where
  rtype : String
  strength : ℚ
  items : List String
deriving DecidableEq, Repr

/-- One edge of the neighbor graph. -/
structure GraphEdge where
  source : String
  target : String
  relation : String
  strength : ℚ
  width : ℤ
  details : List GraphRelation
deriving DecidableEq, Repr

/-- One node of the neighbor graph. -/
structure GraphNode where
  id : String
  label : String
  ntype : String
  collection : String
  score : ℚ
  size : ℤ
deriving DecidableEq, Repr

/-- The `stats` dict of `_build_graph`. -/
structure GraphStats where
  total_candidates : ℕ := 0
  filtered_by_score : ℕ := 0
  nodes_included : ℕ := 0
  edges_included : ℕ := 0
  edges_filtered : ℕ := 0
deriving DecidableEq, Repr

/-- The return value of `_build_graph`. -/
structure NeighborGraph where
  nodes : List GraphNode := []
  edges : List GraphEdge := []
  stats : GraphStats := {}
  score_threshold : ℚ := 1/2
  edge_threshold : ℚ := 1/5
deriving DecidableEq, Repr

/-- Node label: `protein_name or title or caption or pdb_id or "Unknown"`,
truncated to 40 characters. -/
def nodeLabel (p : Payload) : String :=
  (orFalsy p.protein_name (orFalsy p.title (orFalsy p.caption
    (orFalsy p.pdb_id "Unknown")))).take 40

/-- Node-building accumulator: nodes, the global id set (`node_ids`; a
Python set, determinized here to insertion order), `node_payloads`, stats. -/
structure NodeAcc where
  nodes : List GraphNode := []
  node_ids : List String := []
  payloads : List (String × Payload) := []
  stats : GraphStats := {}
deriving Repr

/-- The per-collection node loop of `_build_graph` (`count` enforces
`max_nodes_per_collection` with a `break`; candidates below the score
threshold or with an already-seen id are skipped). -/
def buildNodesColl (scoreT : ℚ) (maxN : ℕ) (coll : String) :
    NodeAcc → ℕ → List SearchRes → NodeAcc
  | acc, _, [] => acc
  | acc, count, r :: rs =>
    if count ≥ maxN then acc
    else
      let stats1 := { acc.stats with total_candidates := acc.stats.total_candidates + 1 }
      if r.score < scoreT then
        buildNodesColl scoreT maxN coll
          { acc with stats := { stats1 with
              filtered_by_score := stats1.filtered_by_score + 1 } } count rs
      else if r.id ∈ acc.node_ids then
        buildNodesColl scoreT maxN coll { acc with stats := stats1 } count rs
      else
        buildNodesColl scoreT maxN coll
          { nodes := acc.nodes ++
              [{ id := r.id, label := nodeLabel r.payload, ntype := rstripS coll,
                 collection := coll, score := pyRound 4 r.score,
                 size := max 10 (pyInt (r.score * 30)) }],
            node_ids := acc.node_ids ++ [r.id],
            payloads := acc.payloads ++ [(r.id, r.payload)],
            stats := stats1 } (count + 1) rs

/-- The node-building pass over every collection. -/
def buildNodes (scoreT : ℚ) (maxN : ℕ)
    (results : List (String × List SearchRes)) : NodeAcc :=
  results.foldl (fun acc cr => buildNodesColl scoreT maxN cr.1 acc 0 cr.2) {}

/-- Deduplication (Python `set(...)` determinized): the distinct elements
of the list, structurally recursive so concrete instances evaluate. -/
def pyDedup : List String → List String
  | [] => []
  | x :: xs =>
    let r := pyDedup xs
    if x ∈ r then r else x :: r

/-- `set(a) & set(b)` with its cardinality and (determinized) iteration
order: the distinct elements of `a` that also occur in `b`. -/
def sharedList (a b : List String) : List String :=
  (pyDedup a).filter (fun x => x ∈ b)

/-- The three shared-category relation records and the summed
`total_strength` for one node pair. -/
def pairRelations (bi bj : NormalizedBridge) : List GraphRelation × ℚ :=
  let sg := sharedList bi.genes bj.genes
  let p1 : List GraphRelation × ℚ :=
    if sg ≠ [] then
      ([{ rtype := "shared_genes", strength := min 1 ((sg.length : ℚ) * (1/4)),
          items := sg.take 5 }], min 1 ((sg.length : ℚ) * (1/4)))
    else ([], 0)
  let sd := sharedList bi.diseases bj.diseases
  let p2 : List GraphRelation × ℚ :=
    if sd ≠ [] then
      ([{ rtype := "shared_diseases", strength := min 1 ((sd.length : ℚ) * (3/10)),
          items := sd.take 3 }], min 1 ((sd.length : ℚ) * (3/10)))
    else ([], 0)
  let sp := sharedList bi.pathways bj.pathways
  let p3 : List GraphRelation × ℚ :=
    if sp ≠ [] then
      ([{ rtype := "shared_pathways", strength := min 1 ((sp.length : ℚ) * (7/20)),
          items := sp.take 3 }], min 1 ((sp.length : ℚ) * (7/20)))
    else ([], 0)
  (p1.1 ++ p2.1 ++ p3.1, p1.2 + p2.2 + p3.2)

/-- `max(relations, key=lambda x: x["strength"])`: the earliest relation of
maximal strength (Python `max` keeps the first maximum). -/
def maxByStrength : GraphRelation → List GraphRelation → GraphRelation
  | best, [] => best
  | best, r :: rs => maxByStrength (if r.strength > best.strength then r else best) rs

/-- The edge computation of `_build_graph` for one node pair: the capped
total strength is checked against the edge threshold (`continue` counts the
pair as filtered), and an edge is produced only when at least one relation
matched, recording the dominant relation.  The second component reports
whether the pair was counted in `stats["edges_filtered"]`. -/
def pairEdge (idi idj : String) (pi pj : Payload) (edgeT : ℚ) :
    Option GraphEdge × Bool :=
  let pr := pairRelations pi.normalized_bridge pj.normalized_bridge
  let finalStrength := min 1 pr.2
  if finalStrength < edgeT then (none, true)
  else
    match pr.1 with
    | [] => (none, false)
    | r0 :: rrest =>
      (some { source := idi, target := idj,
              relation := (maxByStrength r0 rrest).rtype,
              strength := pyRound 4 finalStrength,
              width := max 1 (pyInt (finalStrength * 5)),
              details := r0 :: rrest }, false)

/-- The inner `for j in range(i+1, ...)` edge loop (fixed source id).
Returns the edges plus the `edges_included`/`edges_filtered` deltas. -/
def buildEdgesFrom (edgeT : ℚ) (payloads : List (String × Payload))
    (i : String) : List String → List GraphEdge × ℕ × ℕ
  | [] => ([], 0, 0)
  | j :: js =>
    let pi := (payloads.lookup i).getD {}
    let pj := (payloads.lookup j).getD {}
    let pe := pairEdge i j pi pj edgeT
    let rest := buildEdgesFrom edgeT payloads i js
    match pe.1 with
    | some ed => (ed :: rest.1, rest.2.1 + 1, rest.2.2 + (if pe.2 then 1 else 0))
    | none => (rest.1, rest.2.1, rest.2.2 + (if pe.2 then 1 else 0))

/-- The full `for i ... for j in range(i+1, ...)` edge pass over
`node_list`. -/
def buildEdges (edgeT : ℚ) (payloads : List (String × Payload)) :
    List String → List GraphEdge × ℕ × ℕ
  | [] => ([], 0, 0)
  | i :: rest =>
    let e1 := buildEdgesFrom edgeT payloads i rest
    let e2 := buildEdges edgeT payloads rest
    (e1.1 ++ e2.1, e1.2.1 + e2.2.1, e1.2.2 + e2.2.2)

/-- `_build_graph(results, score_threshold, edge_threshold,
max_nodes_per_collection)`. -/
def buildGraph (results : List (String × List SearchRes))
    (score_threshold : ℚ := 1/2) (edge_threshold : ℚ := 1/5)
    (max_nodes_per_collection : ℕ := 5) : NeighborGraph :=
  let acc := buildNodes score_threshold max_nodes_per_collection results
  let es := buildEdges edge_threshold acc.payloads acc.node_ids
  { nodes := acc.nodes
    edges := es.1
    stats := { acc.stats with
               nodes_included := acc.nodes.length
               edges_included := es.2.1
               edges_filtered := es.2.2 }
    score_threshold := score_threshold
    edge_threshold := edge_threshold }

lemma maxByStrength_mem (b : GraphRelation) (l : List GraphRelation) :
    maxByStrength b l ∈ b :: l := by
  induction l generalizing b with
  | nil => simp [maxByStrength]
  | cons r rs ih =>
    simp only [maxByStrength]
    by_cases h : r.strength > b.strength
    · rw [if_pos h]
      exact List.mem_cons_of_mem b (ih r)
    · rw [if_neg h]
      rcases List.mem_cons.mp (ih b) with h1 | h1
      · rw [h1]
        exact List.mem_cons_self _ _
      · exact List.mem_cons_of_mem _ (List.mem_cons_of_mem _ h1)

lemma maxByStrength_ge (b : GraphRelation) (l : List GraphRelation) :
    ∀ x ∈ b :: l, x.strength ≤ (maxByStrength b l).strength := by
  induction l generalizing b with
  | nil =>
    intro x hx
    simp only [List.mem_singleton] at hx
    rw [hx]
    simp [maxByStrength]
  | cons r rs ih =>
    intro x hx
    simp only [maxByStrength]
    by_cases h : r.strength > b.strength
    · rw [if_pos h]
      rcases List.mem_cons.mp hx with h1 | h1
      · exact h1 ▸ le_trans (le_of_lt h) (ih r r (List.mem_cons_self _ _))
      · exact ih r x h1
    · rw [if_neg h]
      rcases List.mem_cons.mp hx with h1 | h1
      · exact h1 ▸ ih b b (List.mem_cons_self _ _)
      · rcases List.mem_cons.mp h1 with h2 | h2
        · exact h2 ▸ le_trans (not_lt.mp h) (ih b b (List.mem_cons_self _ _))
        · exact ih b x (List.mem_cons_of_mem _ h2)

lemma pairRelations_eq (bi bj : NormalizedBridge) :
    pairRelations bi bj =
      ((if sharedList bi.genes bj.genes = [] then [] else
          [{ rtype := "shared_genes",
             strength := min 1 (((sharedList bi.genes bj.genes).length : ℚ) * (1/4)),
             items := (sharedList bi.genes bj.genes).take 5 }]) ++
       (if sharedList bi.diseases bj.diseases = [] then [] else
          [{ rtype := "shared_diseases",
             strength := min 1 (((sharedList bi.diseases bj.diseases).length : ℚ) * (3/10)),
             items := (sharedList bi.diseases bj.diseases).take 3 }]) ++
       (if sharedList bi.pathways bj.pathways = [] then [] else
          [{ rtype := "shared_pathways",
             strength := min 1 (((sharedList bi.pathways bj.pathways).length : ℚ) * (7/20)),
             items := (sharedList bi.pathways bj.pathways).take 3 }]),
       (if sharedList bi.genes bj.genes = [] then 0 else
          min 1 (((sharedList bi.genes bj.genes).length : ℚ) * (1/4))) +
       (if sharedList bi.diseases bj.diseases = [] then 0 else
          min 1 (((sharedList bi.diseases bj.diseases).length : ℚ) * (3/10))) +
       (if sharedList bi.pathways bj.pathways = [] then 0 else
          min 1 (((sharedList bi.pathways bj.pathways).length : ℚ) * (7/20)))) := by
  simp only [pairRelations]
  by_cases h1 : sharedList bi.genes bj.genes = [] <;>
    by_cases h2 : sharedList bi.diseases bj.diseases = [] <;>
      by_cases h3 : sharedList bi.pathways bj.pathways = [] <;>
        simp [h1, h2, h3]

-- ============================================================
-- CLAIM C9 — graph edge construction
-- ============================================================

/-- The total edge strength as the claim phrases it: `min(1, n·0.25)` for
`n` shared genes, `min(1, n·0.3)` for shared diseases, `min(1, n·0.35)` for
shared pathways, summed (a category with no shared item contributes 0).
Stated from the claim and compared against the code's `pairRelations`
inside `C9_graph_edge_construction`. -/
def claimEdgeTotal (pi pj : Payload) : ℚ :=
  (if 0 < (sharedList pi.normalized_bridge.genes pj.normalized_bridge.genes).length
   then min 1 (((sharedList pi.normalized_bridge.genes
     pj.normalized_bridge.genes).length : ℚ) * (1/4)) else 0) +
  (if 0 < (sharedList pi.normalized_bridge.diseases pj.normalized_bridge.diseases).length
   then min 1 (((sharedList pi.normalized_bridge.diseases
     pj.normalized_bridge.diseases).length : ℚ) * (3/10)) else 0) +
  (if 0 < (sharedList pi.normalized_bridge.pathways pj.normalized_bridge.pathways).length
   then min 1 (((sharedList pi.normalized_bridge.pathways
     pj.normalized_bridge.pathways).length : ℚ) * (7/20)) else 0)

/-- The shared bridge record of the two C9 fixture nodes (exactly 2 genes,
no diseases, no pathways). -/
def c9Bridge : NormalizedBridge := { genes := ["TP53", "BRCA1"] }

/-- First C9 fixture node. -/
def c9Res1 : SearchRes :=
  { id := "P1", score := 9/10,
    payload := { protein_name := some "Alpha", normalized_bridge := c9Bridge },
    collection := "proteins" }

/-- Second C9 fixture node. -/
def c9Res2 : SearchRes :=
  { id := "P2", score := 4/5,
    payload := { protein_name := some "Beta", normalized_bridge := c9Bridge },
    collection := "proteins" }

/-- The C9 fixture result map. -/
def c9Results : List (String × List SearchRes) := [("proteins", [c9Res1, c9Res2])]

/-- The expected edge between the two C9 fixture nodes. -/
def c9Edge : GraphEdge :=
  { source := "P1", target := "P2", relation := "shared_genes", strength := 1/2,
    width := 2,
    details := [{ rtype := "shared_genes", strength := 1/2,
                  items := ["TP53", "BRCA1"] }] }

lemma c9_shared : sharedList c9Bridge.genes c9Bridge.genes = ["TP53", "BRCA1"] := by
  simp [sharedList, pyDedup, c9Bridge]

lemma c9_rels : pairRelations c9Bridge c9Bridge =
    ([{ rtype := "shared_genes", strength := 1/2, items := ["TP53", "BRCA1"] }], 1/2) := by
  rw [pairRelations_eq]
  simp [c9_shared, sharedList, pyDedup, c9Bridge]
  norm_num

lemma c9_pairEdge_04 : pairEdge "P1" "P2" c9Res1.payload c9Res2.payload (4/10) =
    (some c9Edge, false) := by
  have hnot : ¬ ((1 : ℚ) ⊓ (1/2) < 4/10) := by
    rw [min_eq_right (by norm_num : (1/2 : ℚ) ≤ 1)]
    norm_num
  simp only [pairEdge, c9Res1, c9Res2, c9_rels]
  rw [if_neg hnot]
  simp only [maxByStrength, c9Edge, Prod.mk.injEq, Option.some.injEq, GraphEdge.mk.injEq]
  refine ⟨⟨by trivial, by trivial, by trivial, ?_, ?_, by trivial⟩, by trivial⟩
  · rw [min_eq_right (by norm_num : (1/2 : ℚ) ≤ 1)]
    norm_num [pyRound, round_eq]
  · rw [min_eq_right (by norm_num : (1/2 : ℚ) ≤ 1)]
    norm_num [pyInt]

lemma c9_pairEdge_06 : pairEdge "P1" "P2" c9Res1.payload c9Res2.payload (6/10) =
    (none, true) := by
  have hlt : ((1 : ℚ) ⊓ (1/2) < 6/10) := by
    rw [min_eq_right (by norm_num : (1/2 : ℚ) ≤ 1)]
    norm_num
  simp only [pairEdge, c9Res1, c9Res2, c9_rels]
  rw [if_pos hlt]

lemma c9_ids : (buildNodes (1/2) 5 c9Results).node_ids = ["P1", "P2"] := by
  have h1 : ¬ (c9Res1.score < (1/2 : ℚ)) := by norm_num [c9Res1]
  have h2 : ¬ (c9Res2.score < (1/2 : ℚ)) := by norm_num [c9Res2]
  simp only [buildNodes, c9Results, List.foldl, buildNodesColl, if_neg h1, if_neg h2]
  simp [c9Res1, c9Res2, buildNodesColl]

lemma c9_pays : (buildNodes (1/2) 5 c9Results).payloads =
    [("P1", c9Res1.payload), ("P2", c9Res2.payload)] := by
  have h1 : ¬ (c9Res1.score < (1/2 : ℚ)) := by norm_num [c9Res1]
  have h2 : ¬ (c9Res2.score < (1/2 : ℚ)) := by norm_num [c9Res2]
  simp only [buildNodes, c9Results, List.foldl, buildNodesColl, if_neg h1, if_neg h2]
  simp [c9Res1, c9Res2, buildNodesColl]

/-- Claim C9: graph edge construction.  Per node pair, an edge exists iff
the capped total of the per-category bounded strengths reaches the edge
threshold and at least one category matched; a kept edge's strength is the
capped total (rounded for display) and its relation is the dominant
(highest-strength, earliest on ties) category.  Concretely, two nodes
sharing exactly 2 genes and nothing else give strength
`min(1, 2×0.25) = 0.5` with relation `shared_genes`; the edge is absent at
edge threshold 0.6 and present at 0.4. -/
theorem C9_graph_edge_construction :
    (∀ (idi idj : String) (pi pj : Payload) (τ : ℚ),
      ((pairEdge idi idj pi pj τ).1.isSome ↔
        (τ ≤ min 1 (claimEdgeTotal pi pj) ∧
          (0 < (sharedList pi.normalized_bridge.genes
              pj.normalized_bridge.genes).length ∨
           0 < (sharedList pi.normalized_bridge.diseases
              pj.normalized_bridge.diseases).length ∨
           0 < (sharedList pi.normalized_bridge.pathways
              pj.normalized_bridge.pathways).length))) ∧
      (∀ e, (pairEdge idi idj pi pj τ).1 = some e →
        e.strength = pyRound 4 (min 1 (claimEdgeTotal pi pj)) ∧
        ∃ r ∈ e.details, r.rtype = e.relation ∧
          ∀ r2 ∈ e.details, r2.strength ≤ r.strength)) ∧
    (buildGraph c9Results (1/2) (6/10) 5).edges = [] ∧
    (buildGraph c9Results (1/2) (4/10) 5).edges = [c9Edge] ∧
    c9Edge.strength = min 1 ((2 : ℚ) * (1/4)) ∧ c9Edge.relation = "shared_genes" := by
  refine ⟨?_, ?_, ?_, by norm_num [c9Edge], rfl⟩
  · intro idi idj pi pj τ
    have htot : (pairRelations pi.normalized_bridge pj.normalized_bridge).2 =
        claimEdgeTotal pi pj := by
      rw [pairRelations_eq, claimEdgeTotal]
      by_cases h1 : sharedList pi.normalized_bridge.genes pj.normalized_bridge.genes = [] <;>
        by_cases h2 : sharedList pi.normalized_bridge.diseases
          pj.normalized_bridge.diseases = [] <;>
          by_cases h3 : sharedList pi.normalized_bridge.pathways
            pj.normalized_bridge.pathways = [] <;>
            simp [h1, h2, h3, List.length_pos, List.length_eq_zero]
    have hrel : ((pairRelations pi.normalized_bridge pj.normalized_bridge).1 = [] ↔
        ¬ (0 < (sharedList pi.normalized_bridge.genes
              pj.normalized_bridge.genes).length ∨
           0 < (sharedList pi.normalized_bridge.diseases
              pj.normalized_bridge.diseases).length ∨
           0 < (sharedList pi.normalized_bridge.pathways
              pj.normalized_bridge.pathways).length)) := by
      rw [pairRelations_eq]
      by_cases h1 : sharedList pi.normalized_bridge.genes pj.normalized_bridge.genes = [] <;>
        by_cases h2 : sharedList pi.normalized_bridge.diseases
          pj.normalized_bridge.diseases = [] <;>
          by_cases h3 : sharedList pi.normalized_bridge.pathways
            pj.normalized_bridge.pathways = [] <;>
            simp [h1, h2, h3, List.length_pos, List.length_eq_zero]
    constructor
    · simp only [pairEdge, htot]
      by_cases hτ : min 1 (claimEdgeTotal pi pj) < τ
      · rw [if_pos hτ]
        simp only [Option.isSome_none, Bool.false_eq_true, false_iff]
        intro hc
        exact absurd hc.1 (not_le.mpr hτ)
      · rw [if_neg hτ]
        cases hr : (pairRelations pi.normalized_bridge pj.normalized_bridge).1 with
        | nil =>
          simp only [Option.isSome_none, Bool.false_eq_true, false_iff]
          intro hc
          exact (hrel.mp hr) hc.2
        | cons r0 rrest =>
          simp only [Option.isSome_some, true_iff]
          refine ⟨not_lt.mp hτ, ?_⟩
          by_contra hc
          have : (pairRelations pi.normalized_bridge pj.normalized_bridge).1 = [] :=
            hrel.mpr hc
          rw [hr] at this
          cases this
    · intro e he
      simp only [pairEdge] at he
      by_cases hτ : min 1 (pairRelations pi.normalized_bridge pj.normalized_bridge).2 < τ
      · rw [if_pos hτ] at he
        cases he
      · rw [if_neg hτ] at he
        cases hr : (pairRelations pi.normalized_bridge pj.normalized_bridge).1 with
        | nil =>
          rw [hr] at he
          cases he
        | cons r0 rrest =>
          rw [hr] at he
          simp only [Option.some.injEq] at he
          subst he
          refine ⟨by rw [htot], ?_⟩
          exact ⟨maxByStrength r0 rrest, maxByStrength_mem r0 rrest, rfl,
            maxByStrength_ge r0 rrest⟩
  · simp only [buildGraph]
    rw [c9_ids, c9_pays]
    simp [buildEdges, buildEdgesFrom, List.lookup, c9_pairEdge_06]
  · simp only [buildGraph]
    rw [c9_ids, c9_pays]
    simp [buildEdges, buildEdgesFrom, List.lookup, c9_pairEdge_04]

/-- Witness for C9's universally quantified part: the pair characterization
applied to the two concrete fixture payloads at threshold 0.4. -/
theorem C9_graph_edge_construction_witness :
    ((pairEdge "P1" "P2" c9Res1.payload c9Res2.payload (4/10)).1.isSome = true) ∧
    (∀ e, (pairEdge "P1" "P2" c9Res1.payload c9Res2.payload (4/10)).1 = some e →
      e.strength = pyRound 4 (min 1 (claimEdgeTotal c9Res1.payload c9Res2.payload)) ∧
      ∃ r ∈ e.details, r.rtype = e.relation ∧
        ∀ r2 ∈ e.details, r2.strength ≤ r.strength) := by
  have h := (C9_graph_edge_construction.1 "P1" "P2" c9Res1.payload c9Res2.payload (4/10))
  constructor
  · rw [h.1]
    constructor
    · have hcol : claimEdgeTotal c9Res1.payload c9Res2.payload = 1/2 := by
        simp only [claimEdgeTotal, c9Res1, c9Res2]
        simp [c9_shared, sharedList, pyDedup, c9Bridge]
        norm_num
      rw [hcol, min_eq_right (by norm_num : (1/2 : ℚ) ≤ 1)]
      norm_num
    · left
      simp [c9_shared, sharedList, pyDedup, c9Res1, c9Res2, c9Bridge]
  · exact h.2

-- ============================================================
-- app/graph/state.py + app/graph/nodes.py — collaborators and state
-- ============================================================

/-- Cached embedding bundle (the dict stored by `cache.set_embedding`:
`{"vector": ..., "sparse": ..., "concepts": ...}`; the sequence/image/
structure branches store only `{"vector": ...}`). -/
structure EmbVal where
  vector : Vec := []
  sparse : Option Sparse := none
  concepts : List (String × ℚ) := []
deriving DecidableEq, Repr

/-- The embeddings level of the `MultiLevelCache`
(`LRUCache(max_size=10000, default_ttl=None)`). -/
abbrev EmbCache := LRU EmbVal

/-- A fresh embeddings cache level. -/
def emptyEmbCache : EmbCache := { maxSize := 10000, defaultTtl := none, entries := [] }

/-- `cache.get_embedding(content_hash)` = `get("emb:" + hash, "embeddings")`. -/
def getEmbedding (c : EmbCache) (key : String) (now : ℚ) : Option EmbVal × EmbCache :=
  c.get ("emb:" ++ key) now

/-- `cache.set_embedding(content_hash, value)` (embeddings level, no TTL). -/
def setEmbedding (c : EmbCache) (key : String) (v : EmbVal) (now : ℚ) : EmbCache :=
  c.set ("emb:" ++ key) v now none

/-- The Multi-Modal Encoder collaborator (§6).  Each function may raise.
`extract_vector` from the source is the identity on already-flat float
lists (its other branches unwrap numpy objects, which do not exist here),
so encoders return flat vectors directly. -/
structure Encoder where
  encode_text : String → Except Unit Vec
  encode_sequence : String → Except Unit Vec
  encode_image : String → Except Unit Vec
  encode_structure : String → Except Unit Vec
  encode_sparse : String → Except Unit Sparse
  extract_concepts : String → Except Unit (List (String × ℚ))

/-- The entity filter of the Bridge output. -/
structure BridgeFilters where
  genes : List String := []
  diseases : List String := []
  pathways : List String := []
deriving DecidableEq, Repr

/-- The Cross-Modal Reasoner (Bridge) structured output. -/
structure BridgeOutput where
  queries : List (String × String) := []
  filters : BridgeFilters := {}
  alignment : Option String := none
  interpretation : Option String := none
deriving DecidableEq, Repr

/-- One metadata item passed to the Bridge
(`extract_metadata_for_bridge`). -/
structure BridgeMeta where
  score : ℚ
  collection : String
  name : Option String := none
  genes : List String := []
  function : Option String := none
  abstract : Option String := none
  description : Option String := none
  diseases : List String := []
  pathways : List String := []
deriving DecidableEq, Repr

/-- A design candidate dict (LLM output, then labelled by
`_verify_and_label`). -/
structure Candidate where
  id : String := ""
  name : String := ""
  collection : String := ""
  justification : String := ""
  research_suggestion : Option String := none
  confidence : Option String := none
  confidence_icon : Option String := none
  evidence_count : ℕ := 0
deriving DecidableEq, Repr

/-- The LLM client collaborator (§6).  Each call may raise; structured
parse fallbacks live inside the client and are out of scope here. -/
structure LLMClient where
  bridge_cross_modal : Option String → List BridgeMeta → Except Unit BridgeOutput
  generate_design_candidates : String → List Scored → ℕ → Except Unit (List Candidate)
  generate_summary : String → List (String × List Scored) → Except Unit String

/-- The Qdrant vector store collaborator (§6).  A filter dict
`{"normalized_bridge.genes": [...]}` is modelled by its gene list. -/
structure VectorStore where
  vector_search : String → Vec → String → ℕ → Option (List String) →
    Except Unit (List SearchRes)
  hybrid_search : String → Vec → List ℕ → List ℚ → String → String → ℕ →
    Option (List String) → Except Unit (List SearchRes)

/-- The per-modality dense-vector dict `state["vectors"]` (fixed key set;
`struct` stands for the Python key `"structure"`). -/
structure VecBundle where
  text : Option Vec := none
  sequence : Option Vec := none
  image : Option Vec := none
  struct : Option Vec := none
deriving DecidableEq, Repr

/-- The Phase-1 result dict (its keys can only be the three modal home
collections). -/
structure P1Results where
  images : Option (List SearchRes) := none
  proteins : Option (List SearchRes) := none
  structures : Option (List SearchRes) := none
deriving DecidableEq, Repr

/-- One evidence entry produced by `_collect_evidence`. -/
structure EvidenceItem where
  confidence : ℚ
  links : List (String × String)
  collection : String
deriving DecidableEq, Repr

/-- The LangGraph pipeline state (`GraphState` + `create_initial_state`
defaults).  `graph_score_threshold`/`graph_edge_threshold` model the
`state.get(..., default)` lookups of `node_rank_enrich`. -/
structure St where
  input_text : Option String := none
  input_sequence : Option String := none
  input_image_path : Option String := none
  input_structure_path : Option String := none
  top_k : ℕ := 5
  include_graph : Bool := false
  include_evidence : Bool := true
  include_summary : Bool := true
  include_design_candidates : Bool := true
  filter_by_genes : Bool := true
  graph_score_threshold : ℚ := 1/2
  graph_edge_threshold : ℚ := 1/5
  input_type : String := "unknown"
  search_case : ℕ := 1
  has_text : Bool := false
  has_modal : Bool := false
  primary_modality : Option (String ⊕ List String) := none
  modalities : List String := []
  vectors : VecBundle := {}
  sparse_vectors : List (String × Sparse) := []
  concepts : List (String × ℚ) := []
  cache_hits : List (String × Bool) := []
  phase1_results : P1Results := {}
  phase1_metadata : List BridgeMeta := []
  bridge_output : Option BridgeOutput := none
  phase3_results : List (String × List SearchRes) := []
  all_results : List (String × List SearchRes) := []
  search_strategy : String := "CAS_1"
  alignment : Option String := none
  bridge_calls : ℕ := 0
  reranked_results : List (String × List Scored) := []
  design_candidates : List Candidate := []
  summary : String := ""
  interpretation : Option String := none
  evidence : List (String × EvidenceItem) := []
  neighbor_graph : Option NeighborGraph := none
deriving Repr

-- ============================================================
-- app/graph/nodes.py — node_encode
-- ============================================================

/-- Python `str.strip()`: drop leading and trailing whitespace (character
list based, so concrete instances compute). -/
def pyStrip (s : String) : String :=
  String.mk (((s.data.dropWhile Char.isWhitespace).reverse.dropWhile
    Char.isWhitespace).reverse)

/-- `bool(state.get("input_text") and state["input_text"].strip())`. -/
def hasTextInput (st : St) : Bool := pyStrip (st.input_text.getD "") ≠ ""

/-- `bool(state.get("input_sequence") and len(state["input_sequence"]) > 10)`. -/
def hasSeqInput (st : St) : Bool := (st.input_sequence.getD "").length > 10

/-- `bool(state.get("input_image_path"))`. -/
def hasImageInput (st : St) : Bool := st.input_image_path.getD "" ≠ ""

/-- `bool(state.get("input_structure_path"))`. -/
def hasStructInput (st : St) : Bool := st.input_structure_path.getD "" ≠ ""

/-- The `modalities` list, collected in the source order
image, sequence, structure. -/
def detectedModalities (st : St) : List String :=
  (if hasImageInput st then ["image"] else []) ++
  (if hasSeqInput st then ["sequence"] else []) ++
  (if hasStructInput st then ["structure"] else [])

/-- Input-type / search-case / primary-modality classification
(`node_encode` lines 369-402). -/
def classify (ht : Bool) (mods : List String) :
    String × ℕ × Option (String ⊕ List String) :=
  if ht ∧ mods.length = 0 then ("text_only", 1, none)
  else if mods.length > 0 ∧ ¬ht then
    if mods.length = 1 then (mods.headD "", 2, some (Sum.inl (mods.headD "")))
    else (String.intercalate "_" (mods.insertionSort (· ≤ ·)), 2, some (Sum.inr mods))
  else if ht ∧ mods.length > 0 then
    if mods.length = 1 then ("text_" ++ mods.headD "", 3, some (Sum.inl (mods.headD "")))
    else ("text_" ++ String.intercalate "_" (mods.insertionSort (· ≤ ·)), 3,
      some (Sum.inr mods))
  else ("unknown", 1, none)

/-- `f"text:{sha256(text)[:16]}"` with the hash abstract. -/
def textCacheKey (h : String → String) (t : String) : String :=
  "text:" ++ (h t).take 16

/-- `f"seq:{sha256(seq[:100])[:16]}"`: only the first 100 characters of the
sequence enter the key. -/
def seqCacheKey (h : String → String) (s : String) : String :=
  "seq:" ++ (h (s.take 100)).take 16

/-- `f"img:{sha256(path)[:16]}"`. -/
def imgCacheKey (h : String → String) (p : String) : String :=
  "img:" ++ (h p).take 16

/-- `f"struct:{sha256(path)[:16]}"`. -/
def structCacheKey (h : String → String) (p : String) : String :=
  "struct:" ++ (h p).take 16

/-- Result of the text branch of `node_encode`. -/
structure TextStepOut where
  vector : Option Vec := none
  sparse : Option Sparse := none
  concepts : List (String × ℚ) := []
  hit : Option Bool := none
  cache : EmbCache
deriving Repr

/-- Result of a modal (sequence/image/structure) branch of `node_encode`. -/
structure ModalStepOut where
  vector : Option Vec := none
  hit : Option Bool := none
  cache : EmbCache
deriving Repr

/-- The TEXT branch of `node_encode`: cache lookup, then dense encoding
(whose exception propagates — there is no try/except around
`encoder.encode_text`), sparse encoding and concept extraction (each with
its own try/except), and cache write. -/
def textStep (enc : Encoder) (h : String → String) (now : ℚ) (cache : EmbCache)
    (ht : Bool) (text : String) : Except Unit TextStepOut :=
  if ht then
    let g := getEmbedding cache (textCacheKey h text) now
    match g.1 with
    | some val =>
      .ok { vector := some val.vector, sparse := some (val.sparse.getD {}),
            concepts := val.concepts, hit := some true, cache := g.2 }
    | none =>
      match enc.encode_text text with
      | .error e => .error e
      | .ok tv =>
        let sp := match enc.encode_sparse text with
          | .ok s => s
          | .error _ => {}
        let cs := match enc.extract_concepts text with
          | .ok c => c
          | .error _ => []
        .ok { vector := some tv, sparse := some sp, concepts := cs, hit := some false,
              cache := setEmbedding g.2 (textCacheKey h text)
                { vector := tv, sparse := some sp, concepts := cs } now }
  else .ok { cache := cache }

/-- The SEQUENCE branch of `node_encode`: cache lookup, then
`encoder.encode_sequence` whose exception propagates (no try/except). -/
def seqStep (enc : Encoder) (h : String → String) (now : ℚ) (cache : EmbCache)
    (hs : Bool) (seq : String) : Except Unit ModalStepOut :=
  if hs then
    let g := getEmbedding cache (seqCacheKey h seq) now
    match g.1 with
    | some val => .ok { vector := some val.vector, hit := some true, cache := g.2 }
    | none =>
      match enc.encode_sequence seq with
      | .error e => .error e
      | .ok v =>
        .ok { vector := some v, hit := some false,
              cache := setEmbedding g.2 (seqCacheKey h seq) { vector := v } now }
  else .ok { cache := cache }

/-- The IMAGE branch of `node_encode`: the encode call is wrapped in
try/except — on failure the error is logged, `cache_hits["image"]` is set
to `False`, and no vector is produced. -/
def imageStep (enc : Encoder) (h : String → String) (now : ℚ) (cache : EmbCache)
    (hi : Bool) (path : String) : ModalStepOut :=
  if hi then
    let g := getEmbedding cache (imgCacheKey h path) now
    match g.1 with
    | some val => { vector := some val.vector, hit := some true, cache := g.2 }
    | none =>
      match enc.encode_image path with
      | .ok v =>
        { vector := some v, hit := some false,
          cache := setEmbedding g.2 (imgCacheKey h path) { vector := v } now }
      | .error _ => { vector := none, hit := some false, cache := g.2 }
  else { cache := cache }

/-- The STRUCTURE branch of `node_encode` (same try/except shape as the
image branch). -/
def structStep (enc : Encoder) (h : String → String) (now : ℚ) (cache : EmbCache)
    (hstr : Bool) (path : String) : ModalStepOut :=
  if hstr then
    let g := getEmbedding cache (structCacheKey h path) now
    match g.1 with
    | some val => { vector := some val.vector, hit := some true, cache := g.2 }
    | none =>
      match enc.encode_structure path with
      | .ok v =>
        { vector := some v, hit := some false,
          cache := setEmbedding g.2 (structCacheKey h path) { vector := v } now }
      | .error _ => { vector := none, hit := some false, cache := g.2 }
  else { cache := cache }

/-- The `cache_hits` dict in its insertion order text, sequence, image,
structure. -/
def hitsList (t s i u : Option Bool) : List (String × Bool) :=
  (match t with | some b => [("text", b)] | none => []) ++
  (match s with | some b => [("sequence", b)] | none => []) ++
  (match i with | some b => [("image", b)] | none => []) ++
  (match u with | some b => [("structure", b)] | none => [])

/-- `node_encode(state)`: detection, per-modality encoding (text and
sequence branches may raise; image and structure branches never do), then
input-type/search-case classification.  The embeddings cache is threaded
through in source order. -/
def nodeEncode (enc : Encoder) (h : String → String) (now : ℚ) (st : St)
    (cache : EmbCache) : Except Unit (St × EmbCache) := do
  let ht := hasTextInput st
  let hs := hasSeqInput st
  let hi := hasImageInput st
  let hstr := hasStructInput st
  let t ← textStep enc h now cache ht (st.input_text.getD "")
  let s ← seqStep enc h now t.cache hs (st.input_sequence.getD "")
  let i := imageStep enc h now s.cache hi (st.input_image_path.getD "")
  let u := structStep enc h now i.cache hstr (st.input_structure_path.getD "")
  let mods := detectedModalities st
  let cls := classify ht mods
  .ok ({ st with
    input_type := cls.1
    search_case := cls.2.1
    has_text := ht
    has_modal := hs || hi || hstr
    primary_modality := cls.2.2
    modalities := mods
    vectors := { text := t.vector, sequence := s.vector, image := i.vector,
                 struct := u.vector }
    sparse_vectors := (match t.sparse with
      | some sp => [("text_sparse", sp)]
      | none => [])
    concepts := t.concepts
    cache_hits := hitsList t.hit s.hit i.hit u.hit }, u.cache)

-- ============================================================
-- CLAIM C10 — sequence embedding cache key uses only seq[:100]
-- ============================================================

/-- Getting an absent key leaves the cache unchanged. -/
lemma LRU.get_miss_snd {V : Type} (c : LRU V) (k : String) (now : ℚ)
    (hmiss : c.entries.find? (fun e => e.key = k) = none) :
    c.get k now = (none, c) := by
  simp [LRU.get, hmiss]

/-- Reading back a key just written with no explicit TTL into a cache whose
default TTL is `None` always hits. -/
lemma LRU.get_set_self_fst {V : Type} (c : LRU V) (k : String) (v : V)
    (now now2 : ℚ) (hdtl : c.defaultTtl = none) :
    ((c.set k v now none).get k now2).1 = some v := by
  simp only [LRU.get, LRU.find?_set_self]
  simp [LRU.effectiveTtl, hdtl]

/-- `Except.ok a >>= f` computes to `f a`. -/
lemma ok_bind {e a b : Type} (x : a) (f : a → Except e b) :
    (Except.ok x : Except e a) >>= f = f x := rfl

/-- The text branch is skipped when no text is present. -/
lemma textStep_skip (enc : Encoder) (h : String → String) (now : ℚ)
    (cache : EmbCache) (text : String) :
    textStep enc h now cache false text = Except.ok { cache := cache } := rfl

/-- The image branch is skipped when no image is present. -/
lemma imageStep_skip (enc : Encoder) (h : String → String) (now : ℚ)
    (cache : EmbCache) (path : String) :
    imageStep enc h now cache false path = { cache := cache } := rfl

/-- The structure branch is skipped when no structure is present. -/
lemma structStep_skip (enc : Encoder) (h : String → String) (now : ℚ)
    (cache : EmbCache) (path : String) :
    structStep enc h now cache false path = { cache := cache } := rfl

/-- The sequence branch on a cache hit. -/
lemma seqStep_hit (enc : Encoder) (h : String → String) (now : ℚ) (cache : EmbCache)
    (seq : String) (val : EmbVal)
    (hget : (getEmbedding cache (seqCacheKey h seq) now).1 = some val) :
    seqStep enc h now cache true seq =
      Except.ok { vector := some val.vector
                  hit := some true
                  cache := (getEmbedding cache (seqCacheKey h seq) now).2 } := by
  simp only [seqStep, if_true, hget]

/-- The sequence branch on a cache miss with a successful encode. -/
lemma seqStep_miss (enc : Encoder) (h : String → String) (now : ℚ) (cache : EmbCache)
    (seq : String) (v : Vec)
    (hget : (getEmbedding cache (seqCacheKey h seq) now).1 = none)
    (henc : enc.encode_sequence seq = Except.ok v) :
    seqStep enc h now cache true seq =
      Except.ok { vector := some v
                  hit := some false
                  cache := setEmbedding (getEmbedding cache (seqCacheKey h seq) now).2
                    (seqCacheKey h seq) ({ vector := v } : EmbVal) now } := by
  simp only [seqStep, if_true, hget, henc]

/-- A sequence-only request. -/
def c10Req (s : String) : St := { input_sequence := some s }

/-- The pipeline state after a sequence-only request whose encode produced
(or cache served) vector `v`; `hit` is the recorded `cache_hits["sequence"]`. -/
def c10St (s : String) (v : Vec) (hit : Bool) : St :=
  { input_sequence := some s
    input_type := "sequence"
    search_case := 2
    has_text := false
    has_modal := true
    primary_modality := some (Sum.inl "sequence")
    modalities := ["sequence"]
    vectors := { sequence := some v }
    cache_hits := [("sequence", hit)] }

/-- Claim C10: the Stage-1 cache key for a protein sequence is derived from
`seq[:100]` only, so two distinct sequences agreeing on their first 100
characters share one cache key: after a request for `s1` populates the
cache, a request for `s2` is served `s1`'s cached dense vector (a cache
hit), not its own encoding — whatever `encode_sequence` would return for
`s2`. -/
theorem C10_sequence_cache_key_prefix
    (enc : Encoder) (h : String → String) (now1 now2 : ℚ) (s1 s2 : String) (v1 : Vec)
    (hpre : s1.take 100 = s2.take 100) (hne : s1 ≠ s2)
    (hlen1 : s1.length > 10) (hlen2 : s2.length > 10)
    (henc : enc.encode_sequence s1 = Except.ok v1) :
    ∃ c1 c2,
      nodeEncode enc h now1 (c10Req s1) emptyEmbCache =
        Except.ok (c10St s1 v1 false, c1) ∧
      nodeEncode enc h now2 (c10Req s2) c1 = Except.ok (c10St s2 v1 true, c2) ∧
      (c10St s2 v1 true).vectors.sequence = some v1 ∧
      (c10St s2 v1 true).cache_hits.lookup "sequence" = some true := by
  have hht1 : hasTextInput (c10Req s1) = false := rfl
  have hht2 : hasTextInput (c10Req s2) = false := rfl
  have hhs1 : hasSeqInput (c10Req s1) = true := by
    simp [hasSeqInput, c10Req]
    exact hlen1
  have hhs2 : hasSeqInput (c10Req s2) = true := by
    simp [hasSeqInput, c10Req]
    exact hlen2
  have hhi1 : hasImageInput (c10Req s1) = false := rfl
  have hhi2 : hasImageInput (c10Req s2) = false := rfl
  have hhu1 : hasStructInput (c10Req s1) = false := rfl
  have hhu2 : hasStructInput (c10Req s2) = false := rfl
  have hkey : seqCacheKey h s2 = seqCacheKey h s1 := by
    simp [seqCacheKey, hpre]
  have hmiss : emptyEmbCache.entries.find?
      (fun e => e.key = ("emb:" ++ seqCacheKey h s1)) = none := rfl
  have hg1 : getEmbedding emptyEmbCache (seqCacheKey h s1) now1 =
      (none, emptyEmbCache) :=
    LRU.get_miss_snd emptyEmbCache _ now1 hmiss
  have hseq1 : seqStep enc h now1 emptyEmbCache true s1 =
      Except.ok { vector := some v1
                  hit := some false
                  cache := setEmbedding (getEmbedding emptyEmbCache
                      (seqCacheKey h s1) now1).2
                    (seqCacheKey h s1) ({ vector := v1 } : EmbVal) now1 } :=
    seqStep_miss enc h now1 emptyEmbCache s1 v1 (by rw [hg1]) henc
  have hg1snd : (getEmbedding emptyEmbCache (seqCacheKey h s1) now1).2 =
      emptyEmbCache := by rw [hg1]
  rw [hg1snd] at hseq1
  have hg2 : (getEmbedding
      (setEmbedding emptyEmbCache (seqCacheKey h s1) ({ vector := v1 } : EmbVal) now1)
      (seqCacheKey h s2) now2).1 = some ({ vector := v1 } : EmbVal) := by
    rw [hkey]
    exact LRU.get_set_self_fst emptyEmbCache _ _ now1 now2 rfl
  have hseq2 : seqStep enc h now2
      (setEmbedding emptyEmbCache (seqCacheKey h s1) ({ vector := v1 } : EmbVal) now1)
      true s2 =
      Except.ok { vector := some v1
                  hit := some true
                  cache := (getEmbedding
                    (setEmbedding emptyEmbCache (seqCacheKey h s1)
                      ({ vector := v1 } : EmbVal) now1)
                    (seqCacheKey h s2) now2).2 } :=
    seqStep_hit enc h now2 _ s2 ({ vector := v1 } : EmbVal) hg2
  have hmods1 : detectedModalities (c10Req s1) = ["sequence"] := by
    simp [detectedModalities, hhi1, hhs1, hhu1]
  have hmods2 : detectedModalities (c10Req s2) = ["sequence"] := by
    simp [detectedModalities, hhi2, hhs2, hhu2]
  have hcls : classify false ["sequence"] = ("sequence", 2, some (Sum.inl "sequence")) := rfl
  have hgetD1 : (c10Req s1).input_sequence.getD "" = s1 := rfl
  have hgetD2 : (c10Req s2).input_sequence.getD "" = s2 := rfl
  refine ⟨setEmbedding emptyEmbCache (seqCacheKey h s1) ({ vector := v1 } : EmbVal) now1,
    (getEmbedding
      (setEmbedding emptyEmbCache (seqCacheKey h s1) ({ vector := v1 } : EmbVal) now1)
      (seqCacheKey h s2) now2).2, ?_, ?_, rfl, rfl⟩
  · simp only [nodeEncode, hht1, hhs1, hhi1, hhu1, textStep_skip, ok_bind, hgetD1]
    rw [hseq1]
    simp only [ok_bind, imageStep_skip, structStep_skip, hmods1, hcls]
    rfl
  · simp only [nodeEncode, hht2, hhs2, hhi2, hhu2, textStep_skip, ok_bind, hgetD2]
    rw [hseq2]
    simp only [ok_bind, imageStep_skip, structStep_skip, hmods2, hcls]
    rfl

/-- First witness sequence for C10: 101 copies of `A`. -/
def c10S1 : String := String.mk (List.replicate 101 'A')

/-- Second witness sequence for C10: 100 copies of `A` then a `C` — distinct
from `c10S1` but with the same first 100 characters. -/
def c10S2 : String := String.mk (List.replicate 100 'A' ++ ['C'])

/-- Concrete encoder for the C10 witness. -/
def c10Enc : Encoder :=
  { encode_text := fun _ => Except.ok [1]
    encode_sequence := fun _ => Except.ok [1]
    encode_image := fun _ => Except.ok [1]
    encode_structure := fun _ => Except.ok [1]
    encode_sparse := fun _ => Except.ok {}
    extract_concepts := fun _ => Except.ok [] }

set_option maxRecDepth 4096 in
/-- Witness for C10 at two concrete distinct sequences sharing their first
100 characters. -/
theorem C10_sequence_cache_key_prefix_witness :
    ∃ c1 c2,
      nodeEncode c10Enc id 0 (c10Req c10S1) emptyEmbCache =
        Except.ok (c10St c10S1 [1] false, c1) ∧
      nodeEncode c10Enc id 1 (c10Req c10S2) c1 = Except.ok (c10St c10S2 [1] true, c2) ∧
      (c10St c10S2 [1] true).vectors.sequence = some [1] ∧
      (c10St c10S2 [1] true).cache_hits.lookup "sequence" = some true :=
  C10_sequence_cache_key_prefix c10Enc id 0 1 c10S1 c10S2 [1]
    (by decide) (by decide) (by decide) (by decide) rfl

-- ============================================================
-- app/graph/nodes.py — node_search (the 3-case decision engine)
-- ============================================================

/-- `COLLECTIONS`. -/
def COLLECTIONS : List String := ["proteins", "articles", "images", "experiments",
  "structures"]

/-- `FILTERABLE_COLLECTIONS` of the Phase-3 loops. -/
def FILTERABLE : List String := ["proteins", "experiments", "structures", "images"]

/-- `vec_name = "caption" if collection == "images" else "text"`. -/
def primarySlot (c : String) : String := if c = "images" then "caption" else "text"

/-- `for r in results: r["collection"] = collection`. -/
def tagColl (c : String) (rs : List SearchRes) : List SearchRes :=
  rs.map (fun r => { r with collection := c })

/-- One Case-1 per-collection search, with its try/except: an exception
yields an empty list for that collection only. -/
def case1One (q : VectorStore) (tv : Vec) (k : ℕ) (c : String) : List SearchRes :=
  match q.vector_search c tv (primarySlot c) (k * 2) none with
  | .ok rs => tagColl c rs
  | .error _ => []

/-- The Case-1 loop over all five collections (text dense vector against
each collection's primary slot, limit `top_k * 2`). -/
def case1Search (q : VectorStore) (tv : Vec) (k : ℕ) :
    List (String × List SearchRes) :=
  COLLECTIONS.map (fun c => (c, case1One q tv k c))

/-- Phase-1 image search (`if "image" in modalities and "image" in
state["vectors"]`); not wrapped in try/except — exceptions propagate. -/
def p1Image (q : VectorStore) (mods : List String) (vb : VecBundle) (k : ℕ) :
    Except Unit (Option (List SearchRes)) :=
  if "image" ∈ mods ∧ vb.image.isSome then
    (q.vector_search "images" (vb.image.getD []) "image" (k * 2) none).map
      (fun rs => some (tagColl "images" rs))
  else .ok none

/-- Phase-1 sequence search (`proteins` with the `sequence` vector);
not wrapped in try/except. -/
def p1Seq (q : VectorStore) (mods : List String) (vb : VecBundle) (k : ℕ) :
    Except Unit (Option (List SearchRes)) :=
  if "sequence" ∈ mods ∧ vb.sequence.isSome then
    (q.vector_search "proteins" (vb.sequence.getD []) "sequence" (k * 2) none).map
      (fun rs => some (tagColl "proteins" rs))
  else .ok none

/-- Phase-1 structure search (`structures` with the `structure` vector);
not wrapped in try/except. -/
def p1Struct (q : VectorStore) (mods : List String) (vb : VecBundle) (k : ℕ) :
    Except Unit (Option (List SearchRes)) :=
  if "structure" ∈ mods ∧ vb.struct.isSome then
    (q.vector_search "structures" (vb.struct.getD []) "structure" (k * 2) none).map
      (fun rs => some (tagColl "structures" rs))
  else .ok none

/-- Case-2 Phase 1, in the source order image → sequence → structure. -/
def case2Phase1 (q : VectorStore) (mods : List String) (vb : VecBundle) (k : ℕ) :
    Except Unit P1Results := do
  let imgs ← p1Image q mods vb k
  let prots ← p1Seq q mods vb k
  let strs ← p1Struct q mods vb k
  .ok { images := imgs, proteins := prots, structures := strs }

/-- Case-3 Phase 1, in the source order sequence → image → structure, using
only the pure modal vectors (the text vector is never touched). -/
def case3Phase1 (q : VectorStore) (mods : List String) (vb : VecBundle) (k : ℕ) :
    Except Unit P1Results := do
  let prots ← p1Seq q mods vb k
  let imgs ← p1Image q mods vb k
  let strs ← p1Struct q mods vb k
  .ok { images := imgs, proteins := prots, structures := strs }

/-- `searched = set(phase1_results.keys())`. -/
def P1Results.searchedKeys (p : P1Results) : List String :=
  (if p.images.isSome then ["images"] else []) ++
  (if p.proteins.isSome then ["proteins"] else []) ++
  (if p.structures.isSome then ["structures"] else [])

/-- The Phase-1 dict as an association list in its Case-2 insertion order
(images, proteins, structures). -/
def P1Results.toListCase2 (p : P1Results) : List (String × List SearchRes) :=
  (match p.images with | some rs => [("images", rs)] | none => []) ++
  (match p.proteins with | some rs => [("proteins", rs)] | none => []) ++
  (match p.structures with | some rs => [("structures", rs)] | none => [])

/-- The Phase-1 dict as an association list in its Case-3 insertion order
(proteins, images, structures). -/
def P1Results.toListCase3 (p : P1Results) : List (String × List SearchRes) :=
  (match p.proteins with | some rs => [("proteins", rs)] | none => []) ++
  (match p.images with | some rs => [("images", rs)] | none => []) ++
  (match p.structures with | some rs => [("structures", rs)] | none => [])

/-- `extract_metadata_for_bridge(results, max_items=5)`.  The source tests
key presence (`"protein_name" in payload`), modelled by `Option.isSome`;
the `collection` key is always present on tagged results. -/
def extractMetadataForBridge (results : List SearchRes) : List BridgeMeta :=
  (results.take 5).map (fun r =>
    let p := r.payload
    let base : BridgeMeta := { score := pyRound 3 r.score, collection := r.collection }
    let withName : BridgeMeta :=
      if p.protein_name.isSome then
        { base with name := p.protein_name
                    genes := p.gene_names.take 5
                    function := some ((p.function.getD "").take 200) }
      else if p.title.isSome then
        { base with name := some ((p.title.getD "").take 100)
                    abstract := some ((p.abstract.getD "").take 200) }
      else if p.caption.isSome then
        { base with name := some ((p.caption.getD "").take 100)
                    description := some ((p.description.getD "").take 200) }
      else base
    let b := p.normalized_bridge
    { withName with
      genes := if withName.genes ≠ [] then withName.genes else b.genes.take 5
      diseases := b.diseases.take 3
      pathways := b.pathways.take 3 })

/-- The modalities list used by `node_search`: `state.get("modalities", [])`
with the rebuild-from-vectors fallback (image, sequence, structure order). -/
def effModalities (st : St) : List String :=
  if st.modalities ≠ [] then st.modalities
  else
    (if st.vectors.image.isSome then ["image"] else []) ++
    (if st.vectors.sequence.isSome then ["sequence"] else []) ++
    (if st.vectors.struct.isSome then ["structure"] else [])

/-- One Case-2 Phase-3 per-collection search with its try/except
(`encoder.encode_text` of the bridge query and both searches are inside the
try), the gene filter gate, and the single retry without the filter when a
filtered search returns nothing. -/
def phase3Case2One (q : VectorStore) (enc : Encoder) (fbg : Bool)
    (bo : BridgeOutput) (k : ℕ) (c : String) : List SearchRes :=
  let qtext := (bo.queries.lookup c).getD "protein function biology"
  match enc.encode_text qtext with
  | .error _ => []
  | .ok qv =>
    let fd : Option (List String) :=
      if fbg ∧ bo.filters.genes ≠ [] ∧ c ∈ FILTERABLE then some bo.filters.genes
      else none
    match q.vector_search c qv (primarySlot c) (k * 2) fd with
    | .error _ => []
    | .ok rs =>
      if rs.length = 0 ∧ fd.isSome then
        match q.vector_search c qv (primarySlot c) (k * 2) none with
        | .error _ => []
        | .ok rs2 => tagColl c rs2
      else tagColl c rs

/-- The Case-2 Phase-3 loop over the not-yet-searched collections. -/
def phase3Case2 (q : VectorStore) (enc : Encoder) (fbg : Bool) (bo : BridgeOutput)
    (k : ℕ) (rest : List String) : List (String × List SearchRes) :=
  rest.map (fun c => (c, phase3Case2One q enc fbg bo k c))

/-- One Case-3 Phase-3 per-collection search: falsy-aware query selection
(`bridge query or user text or "biological function"`), re-encoding when
the query differs from the user text, hybrid search when sparse terms are
available with a dense fallback on a hybrid exception, the filter retry,
and the outer try/except yielding `[]`. -/
def phase3Case3One (q : VectorStore) (enc : Encoder) (fbg : Bool)
    (bo : BridgeOutput) (input_text : Option String) (text_vec : Vec)
    (sparse_vec : Option Sparse) (k : ℕ) (c : String) : List SearchRes :=
  let q1 : Option String := match bo.queries.lookup c with
    | some s => if s = "" then none else some s
    | none => none
  let qtext := match q1 with
    | some s => s
    | none => match input_text with
      | some s => if s = "" then "biological function" else s
      | none => "biological function"
  let encRes : Except Unit (Vec × Option Sparse) :=
    if input_text ≠ some qtext then
      match enc.encode_text qtext with
      | .error e => .error e
      | .ok qv =>
        match enc.encode_sparse qtext with
        | .error e => .error e
        | .ok sp => .ok (qv, some sp)
    else .ok (text_vec, sparse_vec)
  match encRes with
  | .error _ => []
  | .ok (qv, qs) =>
    let fd : Option (List String) :=
      if fbg ∧ bo.filters.genes ≠ [] ∧ c ∈ FILTERABLE then some bo.filters.genes
      else none
    let vecName := primarySlot c
    let sparseName := if vecName ≠ "caption" then vecName ++ "_sparse"
      else "caption_sparse"
    let sIdx : List ℕ := match qs with | some s => s.indices | none => []
    let sVal : List ℚ := match qs with | some s => s.values | none => []
    let attempt : Except Unit (List SearchRes) :=
      if sIdx ≠ [] ∧ sVal ≠ [] then
        q.hybrid_search c qv sIdx sVal vecName sparseName (k * 2) fd
      else
        q.vector_search c qv vecName (k * 2) fd
    let afterInner : Except Unit (List SearchRes) :=
      match attempt with
      | .ok rs => .ok rs
      | .error _ => q.vector_search c qv vecName (k * 2) fd
    match afterInner with
    | .error _ => []
    | .ok rs =>
      if rs.length = 0 ∧ fd.isSome then
        match q.vector_search c qv vecName (k * 2) none with
        | .error _ => []
        | .ok rs2 => tagColl c rs2
      else tagColl c rs

/-- The Case-3 Phase-3 loop over the not-yet-searched collections. -/
def phase3Case3 (q : VectorStore) (enc : Encoder) (fbg : Bool) (bo : BridgeOutput)
    (input_text : Option String) (text_vec : Vec) (sparse_vec : Option Sparse)
    (k : ℕ) (rest : List String) : List (String × List SearchRes) :=
  rest.map (fun c => (c, phase3Case3One q enc fbg bo input_text text_vec sparse_vec k c))

/-- `node_search(state)`.  `bridge_calls` counts the Bridge LLM invocations
(instrumentation for the "no reasoner call" property; the source calls
`llm.bridge_cross_modal` exactly where the counter is bumped). -/
def nodeSearch (q : VectorStore) (llm : LLMClient) (enc : Encoder) (st : St) :
    Except Unit St :=
  let k := st.top_k
  if st.search_case = 1 then
    let tv := st.vectors.text.getD []
    if tv = [] then
      .ok { st with all_results := [], search_strategy := "CAS_1_ERROR" }
    else
      .ok { st with
        phase1_results := {}
        phase1_metadata := []
        phase3_results := []
        all_results := case1Search q tv k
        bridge_output := none
        search_strategy := "CAS_1"
        alignment := none }
  else if st.search_case = 2 then do
    let mods := effModalities st
    let p1 ← case2Phase1 q mods st.vectors k
    let meta := extractMetadataForBridge (p1.toListCase2.bind Prod.snd)
    let bo ← llm.bridge_cross_modal none meta
    let al := bo.alignment.getD "aligned"
    let rest := COLLECTIONS.filter (fun c => ¬ (c ∈ p1.searchedKeys))
    let p3 := phase3Case2 q enc st.filter_by_genes bo k rest
    .ok { st with
      phase1_results := p1
      phase1_metadata := meta
      bridge_output := some bo
      phase3_results := p3
      all_results := p1.toListCase2 ++ p3
      search_strategy := "CAS_2"
      alignment := some al
      bridge_calls := st.bridge_calls + 1 }
  else if st.search_case = 3 then do
    let mods := effModalities st
    let p1 ← case3Phase1 q mods st.vectors k
    let meta := extractMetadataForBridge (p1.toListCase3.bind Prod.snd)
    let bo ← llm.bridge_cross_modal st.input_text meta
    let al := bo.alignment.getD "aligned"
    let rest := COLLECTIONS.filter (fun c => ¬ (c ∈ p1.searchedKeys))
    let tvec := st.vectors.text.getD []
    let svec := st.sparse_vectors.lookup "text"  -- source reads key "text", not "text_sparse"
    let p3 := phase3Case3 q enc st.filter_by_genes bo st.input_text tvec svec k rest
    .ok { st with
      phase1_results := p1
      phase1_metadata := meta
      bridge_output := some bo
      phase3_results := p3
      all_results := p1.toListCase3 ++ p3
      search_strategy := "CAS_3"
      alignment := some al
      bridge_calls := st.bridge_calls + 1 }
  else
    .ok { st with
      phase1_results := {}
      phase1_metadata := []
      phase3_results := []
      all_results := []
      bridge_output := none }

-- ============================================================
-- CLAIM C1 — no-fusion invariant for Phase 1
-- ============================================================

lemma exceptComm3 (I P S : Except Unit (Option (List SearchRes))) :
    (do
      let prots ← P
      let imgs ← I
      let strs ← S
      (Except.ok ({ images := imgs, proteins := prots, structures := strs } :
        P1Results))) =
    (do
      let imgs ← I
      let prots ← P
      let strs ← S
      (Except.ok ({ images := imgs, proteins := prots, structures := strs } :
        P1Results))) := by
  rcases I with u | i
  · rcases P with u2 | p
    · cases u
      cases u2
      rfl
    · rfl
  · rcases P with u2 | p <;> rfl

/-- Claim C1: no-fusion invariant.  Case-3 Phase 1 searches each modal home
collection with the pure modal vector only, so its Phase-1 result map is
numerically identical to a Case-2 run with the same modal vectors and the
same store — whatever the text vector of the Case-3 bundle is. -/
theorem C1_no_fusion_phase1 (q : VectorStore) (k : ℕ) (mods : List String)
    (v2 v3 : VecBundle)
    (hi : v2.image = v3.image) (hs : v2.sequence = v3.sequence)
    (hu : v2.struct = v3.struct) :
    case3Phase1 q mods v3 k = case2Phase1 q mods v2 k := by
  unfold case3Phase1 case2Phase1 p1Image p1Seq p1Struct
  rw [← hi, ← hs, ← hu]
  exact exceptComm3 _ _ _

/-- Witness store for C1: the proteins collection holds one point at
similarity 0.95 for the fixture sequence vector. -/
def c1Store : VectorStore :=
  { vector_search := fun c _ _ _ _ =>
      if c = "proteins" then Except.ok [{ id := "pt", score := 19/20 }]
      else Except.ok []
    hybrid_search := fun _ _ _ _ _ _ _ _ => Except.ok [] }

/-- Case-2 vector bundle of the C1 witness (modal only). -/
def c1V2 : VecBundle := { sequence := some [1, 2] }

/-- Case-3 vector bundle of the C1 witness: same modal vector plus a text
vector. -/
def c1V3 : VecBundle := { text := some [9, 9], sequence := some [1, 2] }

/-- Witness for C1: with a text vector present, the Case-3 Phase-1 proteins
results equal the Case-2 ones — the fixture's 0.95 similarity is intact. -/
theorem C1_no_fusion_phase1_witness :
    case3Phase1 c1Store ["sequence"] c1V3 5 = case2Phase1 c1Store ["sequence"] c1V2 5 ∧
    case3Phase1 c1Store ["sequence"] c1V3 5 =
      Except.ok { proteins := some [{ id := "pt", score := 19/20,
                                      collection := "proteins" }] } := by
  constructor
  · exact C1_no_fusion_phase1 c1Store 5 ["sequence"] c1V2 c1V3 rfl rfl rfl
  · rfl

-- ============================================================
-- CLAIM C3 — per-collection error isolation in node_search
-- ============================================================

/-- Looking up a key mapped over itself finds the value at that key. -/
lemma lookup_map_self {β : Type} (f : String → β) (l : List String) (c : String)
    (hc : c ∈ l) : (l.map (fun x => (x, f x))).lookup c = some (f c) := by
  induction l with
  | nil => cases hc
  | cons a as ih =>
    by_cases hca : c = a
    · subst hca
      simp [List.lookup]
    · rcases List.mem_cons.mp hc with h | h
      · exact absurd h hca
      · have hb : (c == a) = false := beq_eq_false_iff_ne.mpr hca
        simpa [List.lookup, hb] using ih h

/-- A Phase-3 Case-2 per-collection search only depends on the store
through its own collection's searches. -/
lemma phase3Case2One_congr (q q' : VectorStore) (enc : Encoder) (fbg : Bool)
    (bo : BridgeOutput) (k : ℕ) (c : String)
    (hag : ∀ v n kk f, q.vector_search c v n kk f = q'.vector_search c v n kk f) :
    phase3Case2One q enc fbg bo k c = phase3Case2One q' enc fbg bo k c := by
  unfold phase3Case2One
  simp only [hag]

/-- A Phase-3 Case-2 per-collection search whose collection always raises
yields the empty list (the exception is caught). -/
lemma phase3Case2One_err (q : VectorStore) (enc : Encoder) (fbg : Bool)
    (bo : BridgeOutput) (k : ℕ) (c : String)
    (herr : ∀ v n kk f, q.vector_search c v n kk f = Except.error ()) :
    phase3Case2One q enc fbg bo k c = [] := by
  unfold phase3Case2One
  simp only [herr]
  cases enc.encode_text ((bo.queries.lookup c).getD "protein function biology") <;> rfl

/-- A Phase-3 Case-3 per-collection search only depends on the store
through its own collection's searches (dense and hybrid). -/
lemma phase3Case3One_congr (q q' : VectorStore) (enc : Encoder) (fbg : Bool)
    (bo : BridgeOutput) (it : Option String) (tvec : Vec)
    (svec : Option Sparse) (k : ℕ) (c : String)
    (hag : ∀ v n kk f, q.vector_search c v n kk f = q'.vector_search c v n kk f)
    (hagh : ∀ v si sv n1 n2 kk f, q.hybrid_search c v si sv n1 n2 kk f =
      q'.hybrid_search c v si sv n1 n2 kk f) :
    phase3Case3One q enc fbg bo it tvec svec k c =
      phase3Case3One q' enc fbg bo it tvec svec k c := by
  unfold phase3Case3One
  simp only [hag, hagh]

/-- A Phase-3 Case-3 per-collection search whose collection always raises
(dense and hybrid) yields the empty list: the hybrid failure falls back to
dense, the dense failure is caught by the outer except. -/
lemma phase3Case3One_err (q : VectorStore) (enc : Encoder) (fbg : Bool)
    (bo : BridgeOutput) (it : Option String) (tvec : Vec)
    (svec : Option Sparse) (k : ℕ) (c : String)
    (herr : ∀ v n kk f, q.vector_search c v n kk f = Except.error ())
    (herrh : ∀ v si sv n1 n2 kk f, q.hybrid_search c v si sv n1 n2 kk f =
      Except.error ()) :
    phase3Case3One q enc fbg bo it tvec svec k c = [] := by
  unfold phase3Case3One
  simp only [herr, herrh, ite_self]
  split <;> rfl

/-- C3 counterexample store: every search of the proteins collection
raises; all other searches succeed with an empty hit list. -/
def c3Store : VectorStore :=
  { vector_search := fun c _ _ _ _ =>
      if c = "proteins" then Except.error () else Except.ok []
    hybrid_search := fun _ _ _ _ _ _ _ _ => Except.ok [] }

/-- C3 counterexample LLM client (never consulted before the abort). -/
def c3LLM : LLMClient :=
  { bridge_cross_modal := fun _ _ => Except.ok {}
    generate_design_candidates := fun _ _ _ => Except.ok []
    generate_summary := fun _ _ => Except.ok "" }

/-- C3 counterexample encoder (never consulted before the abort). -/
def c3Enc : Encoder :=
  { encode_text := fun _ => Except.ok [1]
    encode_sequence := fun _ => Except.ok [1]
    encode_image := fun _ => Except.ok [1]
    encode_structure := fun _ => Except.ok [1]
    encode_sparse := fun _ => Except.ok {}
    extract_concepts := fun _ => Except.ok [] }

/-- C3 counterexample state: a Case-2 sequence-only request whose encode
stage succeeded. -/
def c3State : St :=
  { input_sequence := some "MKTAYIAKQRQISFVK"
    input_type := "sequence"
    search_case := 2
    has_modal := true
    primary_modality := some (Sum.inl "sequence")
    modalities := ["sequence"]
    vectors := { sequence := some [1] } }

/-- C3 counterexample state for Case 3: a text+sequence request whose
encode stage succeeded. -/
def c3StateC3 : St :=
  { input_text := some "cancer"
    input_sequence := some "MKTAYIAKQRQISFVK"
    input_type := "text_sequence"
    search_case := 3
    has_text := true
    has_modal := true
    primary_modality := some (Sum.inl "sequence")
    modalities := ["sequence"]
    vectors := { text := some [1], sequence := some [1] }
    sparse_vectors := [("text_sparse", {})] }

/-- C3 counterexample: a Phase-1 search failure is NOT caught and replaced
by an empty list — `node_search` aborts with the exception, in Case 2
(first conjunct) and in Case 3 (second conjunct) alike, even though the
same store raises for no collection other than proteins. -/
theorem C3_counterexample :
    nodeSearch c3Store c3LLM c3Enc c3State = Except.error () ∧
    nodeSearch c3Store c3LLM c3Enc c3StateC3 = Except.error () ∧
    c3Store.vector_search "articles" [1] "text" 10 none = Except.ok [] := by
  exact ⟨rfl, rfl, rfl⟩

/-- Claim C3 (amended): the per-collection try/except protection holds for
the Case-1 loop and for the Phase-3 loops of Cases 2 and 3 (an exception
is caught and yields an empty list for that collection only, and other
collections' results are unaffected by that collection's store behaviour),
but NOT for the Phase-1 modal searches of Cases 2/3, where an exception
propagates (see the counterexample).
Part 1: Case-1 results of other collections are independent of one
collection's store behaviour.  Part 2: a raising collection yields `[]` in
Case 1.  Part 3: Phase-3 (Case 2) results of other collections are
independent of one collection's store behaviour.  Part 4: a raising
collection yields `[]` in Phase 3 (Case 2).  Part 5: Phase-3 (Case 3)
results of other collections are independent of one collection's store
behaviour (dense and hybrid).  Part 6: a collection whose dense and hybrid
searches raise yields `[]` in Phase 3 (Case 3). -/
theorem C3_per_collection_isolation :
    (∀ (q q' : VectorStore) (tv : Vec) (k : ℕ) (c0 : String),
      (∀ c v n kk f, c ≠ c0 → q.vector_search c v n kk f = q'.vector_search c v n kk f) →
      ∀ c ∈ COLLECTIONS, c ≠ c0 →
        (case1Search q tv k).lookup c = (case1Search q' tv k).lookup c) ∧
    (∀ (q : VectorStore) (tv : Vec) (k : ℕ) (c0 : String), c0 ∈ COLLECTIONS →
      q.vector_search c0 tv (primarySlot c0) (k * 2) none = Except.error () →
      (case1Search q tv k).lookup c0 = some []) ∧
    (∀ (q q' : VectorStore) (enc : Encoder) (fbg : Bool) (bo : BridgeOutput)
        (k : ℕ) (rest : List String) (c0 : String),
      (∀ c v n kk f, c ≠ c0 → q.vector_search c v n kk f = q'.vector_search c v n kk f) →
      ∀ c ∈ rest, c ≠ c0 →
        (phase3Case2 q enc fbg bo k rest).lookup c =
          (phase3Case2 q' enc fbg bo k rest).lookup c) ∧
    (∀ (q : VectorStore) (enc : Encoder) (fbg : Bool) (bo : BridgeOutput)
        (k : ℕ) (rest : List String) (c0 : String), c0 ∈ rest →
      (∀ v n kk f, q.vector_search c0 v n kk f = Except.error ()) →
      (phase3Case2 q enc fbg bo k rest).lookup c0 = some []) ∧
    (∀ (q q' : VectorStore) (enc : Encoder) (fbg : Bool) (bo : BridgeOutput)
        (it : Option String) (tvec : Vec) (svec : Option Sparse)
        (k : ℕ) (rest : List String) (c0 : String),
      (∀ c v n kk f, c ≠ c0 → q.vector_search c v n kk f = q'.vector_search c v n kk f) →
      (∀ c v si sv n1 n2 kk f, c ≠ c0 → q.hybrid_search c v si sv n1 n2 kk f =
        q'.hybrid_search c v si sv n1 n2 kk f) →
      ∀ c ∈ rest, c ≠ c0 →
        (phase3Case3 q enc fbg bo it tvec svec k rest).lookup c =
          (phase3Case3 q' enc fbg bo it tvec svec k rest).lookup c) ∧
    (∀ (q : VectorStore) (enc : Encoder) (fbg : Bool) (bo : BridgeOutput)
        (it : Option String) (tvec : Vec) (svec : Option Sparse)
        (k : ℕ) (rest : List String) (c0 : String), c0 ∈ rest →
      (∀ v n kk f, q.vector_search c0 v n kk f = Except.error ()) →
      (∀ v si sv n1 n2 kk f, q.hybrid_search c0 v si sv n1 n2 kk f =
        Except.error ()) →
      (phase3Case3 q enc fbg bo it tvec svec k rest).lookup c0 = some []) := by
  refine ⟨?_, ?_, ?_, ?_, ?_, ?_⟩
  · intro q q' tv k c0 hag c hc hne
    unfold case1Search
    rw [lookup_map_self _ _ _ hc, lookup_map_self _ _ _ hc]
    unfold case1One
    rw [hag c tv (primarySlot c) (k * 2) none hne]
  · intro q tv k c0 hc herr
    unfold case1Search
    rw [lookup_map_self _ _ _ hc]
    unfold case1One
    rw [herr]
  · intro q q' enc fbg bo k rest c0 hag c hc hne
    unfold phase3Case2
    rw [lookup_map_self _ _ _ hc, lookup_map_self _ _ _ hc]
    exact congrArg some
      (phase3Case2One_congr q q' enc fbg bo k c (fun v n kk f => hag c v n kk f hne))
  · intro q enc fbg bo k rest c0 hc herr
    unfold phase3Case2
    rw [lookup_map_self _ _ _ hc]
    rw [phase3Case2One_err q enc fbg bo k c0 herr]
  · intro q q' enc fbg bo it tvec svec k rest c0 hag hagh c hc hne
    unfold phase3Case3
    rw [lookup_map_self _ _ _ hc, lookup_map_self _ _ _ hc]
    exact congrArg some
      (phase3Case3One_congr q q' enc fbg bo it tvec svec k c
        (fun v n kk f => hag c v n kk f hne)
        (fun v si sv n1 n2 kk f => hagh c v si sv n1 n2 kk f hne))
  · intro q enc fbg bo it tvec svec k rest c0 hc herr herrh
    unfold phase3Case3
    rw [lookup_map_self _ _ _ hc]
    rw [phase3Case3One_err q enc fbg bo it tvec svec k c0 herr herrh]

/-- A second C3 fixture store: the experiments collection always raises
(dense only; hybrid succeeds). -/
def c3Store2 : VectorStore :=
  { vector_search := fun c _ _ _ _ =>
      if c = "experiments" then Except.error () else Except.ok []
    hybrid_search := fun _ _ _ _ _ _ _ _ => Except.ok [] }

/-- A third C3 fixture store: the experiments collection always raises,
for dense and hybrid searches alike. -/
def c3Store3 : VectorStore :=
  { vector_search := fun c _ _ _ _ =>
      if c = "experiments" then Except.error () else Except.ok []
    hybrid_search := fun c _ _ _ _ _ _ _ =>
      if c = "experiments" then Except.error () else Except.ok [] }

/-- Witness for C3: concrete instantiations of parts 2, 4 and 6 — the
proteins failure yields `some []` in the Case-1 result map, and the
experiments failure yields `some []` in the Phase-3 maps of Case 2 and of
Case 3. -/
theorem C3_per_collection_isolation_witness :
    (case1Search c3Store [1] 5).lookup "proteins" = some [] ∧
    (phase3Case2 c3Store2 c3Enc true {} 5 ["articles", "experiments"]).lookup
      "experiments" = some [] ∧
    (phase3Case3 c3Store3 c3Enc true {} (some "cancer") [1] none 5
      ["articles", "experiments"]).lookup "experiments" = some [] := by
  refine ⟨?_, ?_, ?_⟩
  · exact C3_per_collection_isolation.2.1 c3Store [1] 5 "proteins" (by decide) rfl
  · exact C3_per_collection_isolation.2.2.2.1 c3Store2 c3Enc true {} 5
      ["articles", "experiments"] "experiments" (by decide) (fun v n kk f => rfl)
  · exact C3_per_collection_isolation.2.2.2.2.2 c3Store3 c3Enc true {}
      (some "cancer") [1] none 5 ["articles", "experiments"] "experiments"
      (by decide) (fun v n kk f => rfl) (fun v si sv n1 n2 kk f => rfl)

-- ============================================================
-- CLAIM C5 — text-only requests: Case 1, five collections, no Bridge
-- ============================================================

/-- A successful `node_encode` run assigns the classification fields and
preserves the request settings. -/
lemma nodeEncode_ok_fields (enc : Encoder) (h : String → String) (now : ℚ)
    (st : St) (cache : EmbCache) (st1 : St) (c1 : EmbCache)
    (henc : nodeEncode enc h now st cache = Except.ok (st1, c1)) :
    st1.input_type = (classify (hasTextInput st) (detectedModalities st)).1 ∧
    st1.search_case = (classify (hasTextInput st) (detectedModalities st)).2.1 ∧
    st1.top_k = st.top_k ∧
    st1.bridge_calls = st.bridge_calls ∧
    st1.input_text = st.input_text ∧
    st1.search_strategy = st.search_strategy ∧
    st1.modalities = detectedModalities st := by
  simp only [nodeEncode] at henc
  cases ht2 : textStep enc h now cache (hasTextInput st) (st.input_text.getD "") with
  | error e =>
    rw [ht2] at henc
    simp [Bind.bind, Except.bind] at henc
  | ok t =>
    rw [ht2] at henc
    simp only [ok_bind] at henc
    cases hs2 : seqStep enc h now t.cache (hasSeqInput st) (st.input_sequence.getD "") with
    | error e =>
      rw [hs2] at henc
      simp [Bind.bind, Except.bind] at henc
    | ok s =>
      rw [hs2] at henc
      simp only [ok_bind] at henc
      injection henc with h1
      rw [Prod.mk.injEq] at h1
      obtain ⟨h1a, h1b⟩ := h1
      subst h1a
      exact ⟨rfl, rfl, rfl, rfl, rfl, rfl, rfl⟩

/-- `node_search` in Case 1 with a non-empty text vector: the five-way
parallel search over all collections, no Bridge call. -/
lemma nodeSearch_case1 (q : VectorStore) (llm : LLMClient) (enc : Encoder)
    (st : St) (hc : st.search_case = 1)
    (htv : st.vectors.text.getD [] ≠ []) :
    nodeSearch q llm enc st = Except.ok { st with
      phase1_results := {}
      phase1_metadata := []
      phase3_results := []
      all_results := case1Search q (st.vectors.text.getD []) st.top_k
      bridge_output := none
      search_strategy := "CAS_1"
      alignment := none } := by
  simp only [nodeSearch]
  rw [if_pos hc, if_neg htv]

/-- Claim C5: for a request whose only usable input is text (trimmed
non-empty text, no sequence longer than 10, no image, no structure), the
encode stage classifies the search case as 1 and the input type as
"text_only"; the search stage then succeeds, querying each of the five
collections with the text dense vector against the collection's primary
slot (`caption` for images, `text` otherwise) with limit `top_k * 2`, and
no Bridge/Reasoner call occurs (`bridge_calls` is unchanged). -/
theorem C5_text_only_case1 (q : VectorStore) (llm : LLMClient) (enc : Encoder)
    (h : String → String) (now : ℚ) (cache : EmbCache) (req st1 : St)
    (c1 : EmbCache)
    (hht : hasTextInput req = true)
    (hhs : hasSeqInput req = false) (hhi : hasImageInput req = false)
    (hhu : hasStructInput req = false)
    (henc : nodeEncode enc h now req cache = Except.ok (st1, c1))
    (htv : st1.vectors.text.getD [] ≠ []) :
    st1.search_case = 1 ∧ st1.input_type = "text_only" ∧
    ∃ st2, nodeSearch q llm enc st1 = Except.ok st2 ∧
      st2.all_results = COLLECTIONS.map (fun c =>
        (c, match q.vector_search c (st1.vectors.text.getD [])
              (if c = "images" then "caption" else "text") (req.top_k * 2) none with
            | .ok rs => rs.map (fun r => { r with collection := c })
            | .error _ => [])) ∧
      st2.bridge_calls = req.bridge_calls := by
  obtain ⟨htype, hcase, hk, hbc, -, -, -⟩ :=
    nodeEncode_ok_fields enc h now req cache st1 c1 henc
  have hmods : detectedModalities req = [] := by
    unfold detectedModalities
    rw [hhs, hhi, hhu]
    rfl
  have hcls : classify (hasTextInput req) (detectedModalities req) =
      ("text_only", 1, none) := by
    rw [hht, hmods]
    rfl
  have hc1 : st1.search_case = 1 := by rw [hcase, hcls]
  have ht1 : st1.input_type = "text_only" := by rw [htype, hcls]
  refine ⟨hc1, ht1, _, nodeSearch_case1 q llm enc st1 hc1 htv, ?_, ?_⟩
  · show case1Search q (st1.vectors.text.getD []) st1.top_k = _
    rw [hk]
    rfl
  · exact hbc

/-- C5 witness store: articles holds one hit, every other collection is
empty. -/
def c5Store : VectorStore :=
  { vector_search := fun c _ _ _ _ =>
      if c = "articles" then Except.ok [{ id := "a1", score := 1/2 }]
      else Except.ok []
    hybrid_search := fun _ _ _ _ _ _ _ _ => Except.ok [] }

/-- C5 witness LLM client. -/
def c5LLM : LLMClient :=
  { bridge_cross_modal := fun _ _ => Except.ok {}
    generate_design_candidates := fun _ _ _ => Except.ok []
    generate_summary := fun _ _ => Except.ok "" }

/-- C5 witness encoder: text encodes to `[1]`. -/
def c5Enc : Encoder :=
  { encode_text := fun _ => Except.ok [1]
    encode_sequence := fun _ => Except.ok [1]
    encode_image := fun _ => Except.ok [1]
    encode_structure := fun _ => Except.ok [1]
    encode_sparse := fun _ => Except.ok {}
    extract_concepts := fun _ => Except.ok [] }

/-- C5 witness request: text only. -/
def c5Req : St := { input_text := some "cancer" }

/-- The state `node_encode` produces from the C5 witness request. -/
def c5St1 : St :=
  { input_text := some "cancer"
    input_type := "text_only"
    search_case := 1
    has_text := true
    has_modal := false
    primary_modality := none
    modalities := []
    vectors := { text := some [1] }
    sparse_vectors := [("text_sparse", {})]
    concepts := []
    cache_hits := [("text", false)] }

/-- The cache `node_encode` produces from the C5 witness request. -/
def c5C1 : EmbCache :=
  setEmbedding emptyEmbCache (textCacheKey id "cancer")
    { vector := [1], sparse := some {}, concepts := [] } 0

set_option maxRecDepth 4096 in
/-- Witness for C5: the concrete text-only request "cancer" is classified
Case 1 / "text_only", all five collections are searched with the text
vector, and the Bridge counter stays at zero. -/
theorem C5_text_only_case1_witness :
    c5St1.search_case = 1 ∧ c5St1.input_type = "text_only" ∧
    ∃ st2, nodeSearch c5Store c5LLM c5Enc c5St1 = Except.ok st2 ∧
      st2.all_results = COLLECTIONS.map (fun c =>
        (c, match c5Store.vector_search c (c5St1.vectors.text.getD [])
              (if c = "images" then "caption" else "text") (c5Req.top_k * 2) none with
            | .ok rs => rs.map (fun r => { r with collection := c })
            | .error _ => [])) ∧
      st2.bridge_calls = c5Req.bridge_calls :=
  C5_text_only_case1 c5Store c5LLM c5Enc id 0 emptyEmbCache c5Req c5St1 c5C1
    (by decide) (by decide) (by decide) (by decide) rfl (by decide)

-- ============================================================
-- app/graph/nodes.py — node_rank_enrich and its helpers
-- ============================================================

/-- `needle` is a prefix of the character list (Python `str.startswith`,
used to decide substring containment). -/
def listPfx : List Char → List Char → Bool
  | [], _ => true
  | _ :: _, [] => false
  | a :: as, b :: bs => a = b && listPfx as bs

/-- Python `needle in hay` on character lists (substring containment). -/
def listInfixB (needle : List Char) : List Char → Bool
  | [] => needle.isEmpty
  | b :: bs => listPfx needle (b :: bs) || listInfixB needle bs

/-- Python `str.lower()` (character-list based so concrete instances
compute). -/
def pyLower (s : String) : String := String.mk (s.data.map Char.toLower)

/-- Python `needle in hay` on strings. -/
def pyIn (needle hay : String) : Bool := listInfixB needle.data hay.data

/-- `_is_exploratory_query(query)`. -/
def isExploratoryQuery (q : String) : Bool :=
  if q = "" then false
  else
    ["discover", "explore", "novel", "new", "potential", "target", "candidate",
     "suggest", "find", "identify", "what", "which"].any
      (fun kw => pyIn kw (pyLower q))

/-- `_has_rich_results(results)` (every value is a list in this model, so
the `isinstance` guard always passes). -/
def hasRichResults (rs : List (String × List Scored)) : Bool :=
  decide (5 ≤ (rs.map (fun p => p.2.length)).sum) &&
  decide (2 ≤ (rs.filter (fun p => decide (2 ≤ p.2.length))).length)

/-- `_flatten_results(results)`: every item with its `collection` key set to
its dict key. -/
def flattenResults (rs : List (String × List Scored)) : List Scored :=
  rs.bind (fun p => p.2.map (fun r =>
    { r with base := { r.base with collection := p.1 } }))

/-- `for i, r in enumerate(selected): r["mmr_rank"] = i + 1` (called with
`1`). -/
def stampRanks : ℕ → List Scored → List Scored
  | _, [] => []
  | i, r :: rs => { r with mmr_rank := i } :: stampRanks (i + 1) rs

/-- The MMR loop of `node_rank_enrich` over `all_results`: empty lists stay
empty, otherwise `_apply_mmr(valid[:10], mmr_lambda, top_k, encoder)` and
the rank stamping.  The encoder exception of `_apply_mmr` propagates — the
loop is not inside a try/except. -/
def rerankAll (enc : String → Except Unit Vec) (cos : Vec → Vec → ℚ)
    (lam : ℚ) (topk : ℕ) :
    List (String × List SearchRes) → Except Unit (List (String × List Scored))
  | [] => .ok []
  | (c, rs) :: rest => do
    let tl ← rerankAll enc cos lam topk rest
    if rs = [] then
      .ok ((c, []) :: tl)
    else do
      let sel ← applyMMR enc cos lam topk (rs.take 10)
      .ok ((c, stampRanks 1 sel) :: tl)

/-- `_verify_and_label(candidate, qdrant, encoder)`: total — every failure
path inside is caught by the bare `except:` and labels the candidate
exploratory. -/
def verifyAndLabel (q : VectorStore) (enc : Encoder) (cand : Candidate) :
    Candidate :=
  let explore : Candidate :=
    { cand with confidence := some "exploratory", confidence_icon := some "💡",
                evidence_count := 0 }
  if cand.name = "" then explore
  else
    match enc.encode_text cand.name with
    | .error _ => explore
    | .ok vec =>
      if vec = [] ∨ vec.length < 10 then explore
      else
        match q.vector_search "articles" vec "text" 10 none with
        | .error _ => explore
        | .ok results =>
          let matching := (results.filter (fun r =>
            pyIn (pyLower cand.name) (pyLower (r.payload.title.getD "")))).length
          if matching > 3 then
            { cand with confidence := some "established",
                        confidence_icon := some "✅",
                        evidence_count := matching * 3 }
          else if matching > 0 then
            { cand with confidence := some "emerging",
                        confidence_icon := some "⚠️",
                        evidence_count := matching }
          else explore

/-- Python `d[k] = v` on an association-list dict: replace in place if the
key exists, else append. -/
def pyDictSet {A : Type} (l : List (String × A)) (k : String) (v : A) :
    List (String × A) :=
  if (l.lookup k).isSome then l.map (fun p => if p.1 = k then (k, v) else p)
  else l ++ [(k, v)]

/-- The per-collection link dict of `_collect_evidence`. -/
def evidenceLinks (collection : String) (p : Payload) : List (String × String) :=
  if collection = "proteins" then
    match p.uniprot_id with
    | some u => if u = "" then [] else
        [("uniprot", "https://www.uniprot.org/uniprotkb/" ++ u)]
    | none => []
  else if collection = "articles" then
    (match p.pmid with
     | some u => if u = "" then [] else
         [("pubmed", "https://pubmed.ncbi.nlm.nih.gov/" ++ u)]
     | none => []) ++
    (match p.doi with
     | some u => if u = "" then [] else [("doi", "https://doi.org/" ++ u)]
     | none => [])
  else if collection = "structures" then
    match p.pdb_id with
    | some u => if u = "" then [] else
        [("pdb", "https://www.rcsb.org/structure/" ++ u)]
    | none => []
  else if collection = "experiments" then
    let g := orFalsy p.geo_id (orFalsy p.accession "")
    if g = "" then [] else
      [("geo", "https://www.ncbi.nlm.nih.gov/geo/query/acc.cgi?acc=" ++ g)]
  else []

/-- `_collect_evidence(results)`: one entry per result id (later writes win,
as in a Python dict), confidence `min(1.0, score * 1.2)`. -/
def collectEvidence (rs : List (String × List Scored)) :
    List (String × EvidenceItem) :=
  rs.foldl (fun ev cr =>
    cr.2.foldl (fun ev2 r =>
      pyDictSet ev2 r.base.id
        { confidence := min 1 (r.base.score * (6/5))
          links := evidenceLinks cr.1 r.base.payload
          collection := cr.1 }) ev) []

/-- The DESIGN ASSISTANT block of `node_rank_enrich`.  Inside the try:
when there is no text and the run is multimodal, the context comes from
`bridge_output.get("interpretation", ...)` — if `bridge_output` is `None`
this raises (`None.get`), caught by the except with no candidate appended.
An LLM failure is likewise caught.  `_verify_and_label` is total. -/
def designStep (q : VectorStore) (llm : LLMClient) (enc : Encoder) (st : St)
    (rr : List (String × List Scored)) : List Candidate :=
  if st.include_design_candidates then
    let im := st.search_case = 2 ∨ st.search_case = 3
    let should := im ∨ isExploratoryQuery (orFalsy st.input_text "") ∨
      hasRichResults rr
    if should then
      let qc := orFalsy st.input_text ""
      let qcRes : Except Unit String :=
        if qc = "" ∧ im then
          match st.bridge_output with
          | none => .error ()
          | some b => .ok (b.interpretation.getD
              "Find related biological entities based on uploaded data")
        else .ok qc
      match qcRes with
      | .error _ => []
      | .ok qc2 =>
        match llm.generate_design_candidates qc2 ((flattenResults rr).take 10) 3 with
        | .error _ => []
        | .ok cands => cands.map (verifyAndLabel q enc)
    else []
  else []

/-- The SUMMARY block of `node_rank_enrich`: the Bridge interpretation when
truthy, otherwise an LLM summary whose failure falls back to the counting
template. -/
def summaryStep (llm : LLMClient) (st : St)
    (rr : List (String × List Scored)) : String × Option String :=
  let gen : String × Option String :=
    match llm.generate_summary (orFalsy st.input_text "") rr with
    | .ok s => (s, none)
    | .error _ =>
      ("Found " ++ toString ((rr.map (fun p => p.2.length)).sum) ++
       " results across " ++ toString rr.length ++ " collections.", none)
  if st.include_summary then
    match st.bridge_output with
    | some b =>
      match b.interpretation with
      | some i => if i ≠ "" then (i, some i) else gen
      | none => gen
    | none => gen
  else ("", none)

/-- `node_rank_enrich(state)`: MMR rerank (always; encoder exceptions
propagate), then the optional design / summary / evidence / graph blocks
(each total). -/
def nodeRankEnrich (q : VectorStore) (llm : LLMClient) (enc : Encoder)
    (cos : Vec → Vec → ℚ) (st : St) : Except Unit St := do
  let lam := mmrLambda st.alignment
  let rr ← rerankAll enc.encode_text cos lam st.top_k st.all_results
  .ok { st with
    reranked_results := rr
    design_candidates := designStep q llm enc st rr
    summary := (summaryStep llm st rr).1
    interpretation := (summaryStep llm st rr).2
    evidence := if st.include_evidence then collectEvidence rr else []
    neighbor_graph :=
      if st.include_graph then
        some (buildGraph (rr.map (fun p => (p.1, p.2.map Scored.base)))
          st.graph_score_threshold st.graph_edge_threshold 5)
      else none }

-- ============================================================
-- app/graph/workflow.py — build_response / run_recommendation
-- ============================================================

/-- The `SearchResponse` fields the pipeline logic determines.  The
`quadrant` carries the reranked results themselves; the presentational
per-item reshaping of `format_results` (display name / description
truncation into `ResultItem`) is not modelled. -/
structure Response where
  input_type : String
  processing_time : ℚ
  quadrant : List (String × List Scored) := []
  design_candidates : List Candidate := []
  evidence : List (String × EvidenceItem) := []
  neighbor_graph : Option NeighborGraph := none
  summary : String := ""
  divergence_level : Option String := none
  search_strategy : Option String := none
deriving Repr

/-- `build_response(state, start_time)` (`elapsed` abstracts
`time.time() - start_time`). -/
def buildResponse (st : St) (elapsed : ℚ) : Response :=
  { input_type := st.input_type
    processing_time := pyRound 3 elapsed
    quadrant := st.reranked_results
    design_candidates := st.design_candidates
    evidence := st.evidence
    neighbor_graph := st.neighbor_graph
    summary := st.summary
    divergence_level := some (orFalsy st.alignment "aligned")
    search_strategy := some st.search_strategy }

/-- `run_recommendation(...)` without an article path: the initial state,
the three workflow nodes, and the try/except that turns any workflow
exception into the `input_type="error"` response (whose summary is
`f"Error: {e}"`, abstracted to `"Error"`; its `processing_time` is the
unrounded elapsed time and its other fields are the `SearchResponse`
defaults). -/
def runRecommendation (q : VectorStore) (llm : LLMClient) (enc : Encoder)
    (cos : Vec → Vec → ℚ) (h : String → String) (now elapsed : ℚ)
    (cache : EmbCache) (text seq image_path structure_path : Option String)
    (top_k : ℕ) (include_graph include_evidence include_summary
      include_design_candidates filter_by_genes : Bool) : Response :=
  let st0 : St :=
    { input_text := text
      input_sequence := seq
      input_image_path := image_path
      input_structure_path := structure_path
      top_k := top_k
      include_graph := include_graph
      include_evidence := include_evidence
      include_summary := include_summary
      include_design_candidates := include_design_candidates
      filter_by_genes := filter_by_genes }
  match (do
    let r1 ← nodeEncode enc h now st0 cache
    let s2 ← nodeSearch q llm enc r1.1
    nodeRankEnrich q llm enc cos s2 : Except Unit St) with
  | .ok sf => buildResponse sf elapsed
  | .error _ => { input_type := "error", processing_time := elapsed,
                  summary := "Error" }

/-- The sequence branch is skipped when no (long-enough) sequence is
present. -/
lemma seqStep_skip (enc : Encoder) (h : String → String) (now : ℚ)
    (cache : EmbCache) (seq : String) :
    seqStep enc h now cache false seq = Except.ok { cache := cache } := rfl

-- ============================================================
-- CLAIM C4 — behaviour on requests with no usable input
-- ============================================================

/-- `node_encode` on a request with no usable input: every branch is
skipped and the state is classified `input_type="unknown"`,
`search_case=1`, with empty vectors — no exception is raised. -/
lemma nodeEncode_no_input (enc : Encoder) (h : String → String) (now : ℚ)
    (st : St) (cache : EmbCache)
    (h1 : hasTextInput st = false) (h2 : hasSeqInput st = false)
    (h3 : hasImageInput st = false) (h4 : hasStructInput st = false) :
    nodeEncode enc h now st cache = Except.ok ({ st with
      input_type := "unknown", search_case := 1, has_text := false,
      has_modal := false, primary_modality := none, modalities := [],
      vectors := {}, sparse_vectors := [], concepts := [],
      cache_hits := [] }, cache) := by
  have hmods : detectedModalities st = [] := by
    unfold detectedModalities
    rw [h2, h3, h4]
    rfl
  simp only [nodeEncode, h1, h2, h3, h4, hmods, textStep_skip, seqStep_skip,
    imageStep_skip, structStep_skip, ok_bind]
  rfl

/-- `node_search` in Case 1 with an empty (or absent) text vector returns
the `CAS_1_ERROR` state with no results, raising nothing. -/
lemma nodeSearch_case1_err (q : VectorStore) (llm : LLMClient) (enc : Encoder)
    (st : St) (hc : st.search_case = 1)
    (htv : st.vectors.text.getD [] = []) :
    nodeSearch q llm enc st = Except.ok { st with
      all_results := [], search_strategy := "CAS_1_ERROR" } := by
  simp only [nodeSearch]
  rw [if_pos hc, if_pos htv]

/-- `node_rank_enrich` on a state with no results at all: every block is
total and the rerank map is empty. -/
lemma nodeRankEnrich_empty (q : VectorStore) (llm : LLMClient) (enc : Encoder)
    (cos : Vec → Vec → ℚ) (st : St) (hall : st.all_results = []) :
    nodeRankEnrich q llm enc cos st = Except.ok { st with
      reranked_results := []
      design_candidates := designStep q llm enc st []
      summary := (summaryStep llm st []).1
      interpretation := (summaryStep llm st []).2
      evidence := if st.include_evidence then collectEvidence [] else []
      neighbor_graph := if st.include_graph then
          some (buildGraph [] st.graph_score_threshold st.graph_edge_threshold 5)
        else none } := by
  simp only [nodeRankEnrich, hall]
  rfl

/-- The full three-node pipeline on a request with no usable input:
it completes without any exception, ending in the `"unknown"` /
`CAS_1_ERROR` state with empty results. -/
lemma pipeline_no_input (q : VectorStore) (llm : LLMClient) (enc : Encoder)
    (cos : Vec → Vec → ℚ) (h : String → String) (now : ℚ) (cache : EmbCache)
    (st : St)
    (h1 : hasTextInput st = false) (h2 : hasSeqInput st = false)
    (h3 : hasImageInput st = false) (h4 : hasStructInput st = false) :
    ∃ sf, (do
        let r1 ← nodeEncode enc h now st cache
        let s2 ← nodeSearch q llm enc r1.1
        nodeRankEnrich q llm enc cos s2 : Except Unit St) = Except.ok sf ∧
      sf.input_type = "unknown" ∧ sf.search_strategy = "CAS_1_ERROR" ∧
      sf.reranked_results = [] ∧ sf.alignment = st.alignment := by
  rw [nodeEncode_no_input enc h now st cache h1 h2 h3 h4]
  simp only [ok_bind]
  set st1 : St := { st with
    input_type := "unknown", search_case := 1, has_text := false,
    has_modal := false, primary_modality := none, modalities := [],
    vectors := {}, sparse_vectors := [], concepts := [],
    cache_hits := [] } with hst1
  have e2 := nodeSearch_case1_err q llm enc st1 (by simp only [hst1])
    (by simp only [hst1, Option.getD_none])
  rw [e2]
  simp only [ok_bind]
  set st2 : St := { st1 with
    all_results := [], search_strategy := "CAS_1_ERROR" } with hst2
  have e3 := nodeRankEnrich_empty q llm enc cos st2 (by simp only [hst2])
  rw [e3]
  exact ⟨_, rfl, rfl, rfl, rfl, rfl⟩

/-- C4 fixture store (all searches succeed, returning nothing). -/
def c4Store : VectorStore :=
  { vector_search := fun _ _ _ _ _ => Except.ok []
    hybrid_search := fun _ _ _ _ _ _ _ _ => Except.ok [] }

/-- C4 fixture LLM client. -/
def c4LLM : LLMClient :=
  { bridge_cross_modal := fun _ _ => Except.ok {}
    generate_design_candidates := fun _ _ _ => Except.ok []
    generate_summary := fun _ _ => Except.ok "No results were found." }

/-- C4 fixture encoder. -/
def c4Enc : Encoder :=
  { encode_text := fun _ => Except.ok [1]
    encode_sequence := fun _ => Except.ok [1]
    encode_image := fun _ => Except.ok [1]
    encode_structure := fun _ => Except.ok [1]
    encode_sparse := fun _ => Except.ok {}
    extract_concepts := fun _ => Except.ok [] }

/-- C4 counterexample: a request with no input at all does NOT produce an
error-tagged response — `run_recommendation` completes normally and returns
`input_type = "unknown"` with `search_strategy = "CAS_1_ERROR"`, a
success-shaped response. -/
theorem C4_counterexample :
    (runRecommendation c4Store c4LLM c4Enc (fun _ _ => 0) id 0 0 emptyEmbCache
      none none none none 5 false true true true true).input_type = "unknown" ∧
    (runRecommendation c4Store c4LLM c4Enc (fun _ _ => 0) id 0 0 emptyEmbCache
      none none none none 5 false true true true true).input_type ≠ "error" ∧
    (runRecommendation c4Store c4LLM c4Enc (fun _ _ => 0) id 0 0 emptyEmbCache
      none none none none 5 false true true true true).search_strategy =
      some "CAS_1_ERROR" ∧
    (runRecommendation c4Store c4LLM c4Enc (fun _ _ => 0) id 0 0 emptyEmbCache
      none none none none 5 false true true true true).summary =
      "No results were found." :=
  ⟨rfl, by decide, rfl, rfl⟩

/-- Claim C4 (amended): for every request with no usable input (no
non-empty trimmed text, no sequence longer than 10, no image, no
structure), under any collaborators and settings, `run_recommendation`
does NOT return a top-level error response: the pipeline completes
normally, the response is tagged `input_type = "unknown"` (not `"error"`),
`search_strategy = "CAS_1_ERROR"`, its result quadrant is empty, its
divergence level is `"aligned"`, and its processing time is the rounded
elapsed time of the normal path. -/
theorem C4_no_input_not_error (q : VectorStore) (llm : LLMClient)
    (enc : Encoder) (cos : Vec → Vec → ℚ) (h : String → String)
    (now elapsed : ℚ) (cache : EmbCache)
    (text seq image_path structure_path : Option String)
    (top_k : ℕ) (ig ie isum idc fbg : Bool)
    (htext : pyStrip (text.getD "") = "")
    (hseq : (seq.getD "").length ≤ 10)
    (himg : image_path.getD "" = "")
    (hstruct : structure_path.getD "" = "") :
    (runRecommendation q llm enc cos h now elapsed cache text seq image_path
        structure_path top_k ig ie isum idc fbg).input_type = "unknown" ∧
    (runRecommendation q llm enc cos h now elapsed cache text seq image_path
        structure_path top_k ig ie isum idc fbg).input_type ≠ "error" ∧
    (runRecommendation q llm enc cos h now elapsed cache text seq image_path
        structure_path top_k ig ie isum idc fbg).search_strategy =
      some "CAS_1_ERROR" ∧
    (runRecommendation q llm enc cos h now elapsed cache text seq image_path
        structure_path top_k ig ie isum idc fbg).quadrant = [] ∧
    (runRecommendation q llm enc cos h now elapsed cache text seq image_path
        structure_path top_k ig ie isum idc fbg).divergence_level =
      some "aligned" ∧
    (runRecommendation q llm enc cos h now elapsed cache text seq image_path
        structure_path top_k ig ie isum idc fbg).processing_time =
      pyRound 3 elapsed := by
  simp only [runRecommendation]
  set st0 : St :=
    { input_text := text
      input_sequence := seq
      input_image_path := image_path
      input_structure_path := structure_path
      top_k := top_k
      include_graph := ig
      include_evidence := ie
      include_summary := isum
      include_design_candidates := idc
      filter_by_genes := fbg } with hst0
  have h1 : hasTextInput st0 = false := by
    simp [hasTextInput, hst0, htext]
  have h2 : hasSeqInput st0 = false := by
    simp only [hasSeqInput, hst0]
    simp only [decide_eq_false_iff_not, gt_iff_lt, not_lt]
    exact hseq
  have h3 : hasImageInput st0 = false := by
    simp [hasImageInput, hst0, himg]
  have h4 : hasStructInput st0 = false := by
    simp [hasStructInput, hst0, hstruct]
  obtain ⟨sf, heq, hty, hstrat, hrr, hal⟩ :=
    pipeline_no_input q llm enc cos h now cache st0 h1 h2 h3 h4
  rw [heq]
  refine ⟨hty, ?_, ?_, hrr, ?_, rfl⟩
  · show sf.input_type ≠ "error"
    rw [hty]
    decide
  · show some sf.search_strategy = some "CAS_1_ERROR"
    rw [hstrat]
  · show some (orFalsy sf.alignment "aligned") = some "aligned"
    rw [hal, hst0]
    rfl

/-- Witness for C4: the amended theorem applied to the fully empty request
with concrete collaborators. -/
theorem C4_no_input_not_error_witness :
    (runRecommendation c4Store c4LLM c4Enc (fun _ _ => 0) id 0 (1/2)
        emptyEmbCache none (some "SHORTSEQ") none none 7 true true true true
        false).input_type = "unknown" ∧
    (runRecommendation c4Store c4LLM c4Enc (fun _ _ => 0) id 0 (1/2)
        emptyEmbCache none (some "SHORTSEQ") none none 7 true true true true
        false).input_type ≠ "error" ∧
    (runRecommendation c4Store c4LLM c4Enc (fun _ _ => 0) id 0 (1/2)
        emptyEmbCache none (some "SHORTSEQ") none none 7 true true true true
        false).search_strategy = some "CAS_1_ERROR" ∧
    (runRecommendation c4Store c4LLM c4Enc (fun _ _ => 0) id 0 (1/2)
        emptyEmbCache none (some "SHORTSEQ") none none 7 true true true true
        false).quadrant = [] ∧
    (runRecommendation c4Store c4LLM c4Enc (fun _ _ => 0) id 0 (1/2)
        emptyEmbCache none (some "SHORTSEQ") none none 7 true true true true
        false).divergence_level = some "aligned" ∧
    (runRecommendation c4Store c4LLM c4Enc (fun _ _ => 0) id 0 (1/2)
        emptyEmbCache none (some "SHORTSEQ") none none 7 true true true true
        false).processing_time = pyRound 3 (1/2) :=
  C4_no_input_not_error c4Store c4LLM c4Enc (fun _ _ => 0) id 0 (1/2)
    emptyEmbCache none (some "SHORTSEQ") none none 7 true true true true false
    (by decide) (by decide) (by decide) (by decide)

-- ============================================================
-- CLAIM C2 — encoding-failure tolerance
-- ============================================================

/-- C2 fixture store (all searches succeed, returning nothing). -/
def c2Store : VectorStore :=
  { vector_search := fun _ _ _ _ _ => Except.ok []
    hybrid_search := fun _ _ _ _ _ _ _ _ => Except.ok [] }

/-- C2 fixture LLM client. -/
def c2LLM : LLMClient :=
  { bridge_cross_modal := fun _ _ => Except.ok {}
    generate_design_candidates := fun _ _ _ => Except.ok []
    generate_summary := fun _ _ => Except.ok "summary" }

/-- C2 fixture encoder whose image and structure encoders always raise
(text and sequence still work). -/
def c2EncBad : Encoder :=
  { encode_text := fun _ => Except.ok (List.replicate 12 1)
    encode_sequence := fun _ => Except.ok (List.replicate 12 1)
    encode_image := fun _ => Except.error ()
    encode_structure := fun _ => Except.error ()
    encode_sparse := fun _ => Except.ok {}
    extract_concepts := fun _ => Except.ok [] }

/-- C2 fixture encoder whose sequence encoder always raises (text still
works). -/
def c2EncBadSeq : Encoder :=
  { encode_text := fun _ => Except.ok [1]
    encode_sequence := fun _ => Except.error ()
    encode_image := fun _ => Except.ok [1]
    encode_structure := fun _ => Except.ok [1]
    encode_sparse := fun _ => Except.ok {}
    extract_concepts := fun _ => Except.ok [] }

/-- C2 image-only fixture request. -/
def c2ReqImg : St := { input_image_path := some "img.png" }

/-- C2 structure-only fixture request. -/
def c2ReqStruct : St := { input_structure_path := some "struct.pdb" }

set_option maxRecDepth 8192 in
/-- C2 counterexample: a sequence-encoding failure ABORTS the whole
request — for a text+sequence request whose `encode_sequence` raises,
`run_recommendation` returns the error response with no results at all,
even though the text modality encoded fine (third conjunct). -/
theorem C2_counterexample :
    (runRecommendation c2Store c2LLM c2EncBadSeq (fun _ _ => 0) id 0 0
      emptyEmbCache (some "cancer") (some "ABCDEFGHIJKL") none none
      5 false true true true true).input_type = "error" ∧
    (runRecommendation c2Store c2LLM c2EncBadSeq (fun _ _ => 0) id 0 0
      emptyEmbCache (some "cancer") (some "ABCDEFGHIJKL") none none
      5 false true true true true).quadrant = [] ∧
    c2EncBadSeq.encode_text "cancer" = Except.ok [1] :=
  ⟨rfl, rfl, rfl⟩

/-- Claim C2 (amended): only the image and structure encode calls are
individually protected.  Part 1: an image-encode failure (cold cache) is
absorbed — `node_encode` succeeds, the image modality is simply absent from
the vector set (`vectors = {}`), `cache_hits["image"] = False`, and the
state proceeds to Case 2 as an `"image"` request.  Part 2: the same for a
structure-encode failure.  Part 3 (concrete end-to-end): with the image
encoder raising, a whole image-only request still completes with a normal
`input_type = "image"` / `CAS_2` response, not an error response.  (Text
and sequence failures, by contrast, abort the request: see the
counterexample.) -/
theorem C2_encode_failure_tolerance :
    (∀ (enc : Encoder) (h : String → String) (now : ℚ) (st : St)
        (cache : EmbCache),
      hasTextInput st = false → hasSeqInput st = false →
      hasImageInput st = true → hasStructInput st = false →
      (getEmbedding cache (imgCacheKey h (st.input_image_path.getD "")) now).1
        = none →
      enc.encode_image (st.input_image_path.getD "") = Except.error () →
      nodeEncode enc h now st cache = Except.ok ({ st with
        input_type := "image", search_case := 2, has_text := false,
        has_modal := true, primary_modality := some (Sum.inl "image"),
        modalities := ["image"], vectors := {}, sparse_vectors := [],
        concepts := [], cache_hits := [("image", false)] },
        (getEmbedding cache (imgCacheKey h (st.input_image_path.getD ""))
          now).2)) ∧
    (∀ (enc : Encoder) (h : String → String) (now : ℚ) (st : St)
        (cache : EmbCache),
      hasTextInput st = false → hasSeqInput st = false →
      hasImageInput st = false → hasStructInput st = true →
      (getEmbedding cache (structCacheKey h (st.input_structure_path.getD ""))
        now).1 = none →
      enc.encode_structure (st.input_structure_path.getD "") =
        Except.error () →
      nodeEncode enc h now st cache = Except.ok ({ st with
        input_type := "structure", search_case := 2, has_text := false,
        has_modal := true, primary_modality := some (Sum.inl "structure"),
        modalities := ["structure"], vectors := {}, sparse_vectors := [],
        concepts := [], cache_hits := [("structure", false)] },
        (getEmbedding cache
          (structCacheKey h (st.input_structure_path.getD "")) now).2)) ∧
    ((runRecommendation c2Store c2LLM c2EncBad (fun _ _ => 0) id 0 0
        emptyEmbCache none none (some "img.png") none
        5 false true true true true).input_type = "image" ∧
     (runRecommendation c2Store c2LLM c2EncBad (fun _ _ => 0) id 0 0
        emptyEmbCache none none (some "img.png") none
        5 false true true true true).input_type ≠ "error" ∧
     (runRecommendation c2Store c2LLM c2EncBad (fun _ _ => 0) id 0 0
        emptyEmbCache none none (some "img.png") none
        5 false true true true true).search_strategy = some "CAS_2") := by
  refine ⟨?_, ?_, rfl, by decide, rfl⟩
  · intro enc h now st cache h1 h2 h3 h4 hmiss hencim
    have hmods : detectedModalities st = ["image"] := by
      unfold detectedModalities
      rw [h2, h3, h4]
      rfl
    simp only [nodeEncode, h1, h2, h3, h4, hmods, textStep_skip, seqStep_skip,
      ok_bind, structStep_skip]
    simp only [imageStep, if_true, hmiss, hencim]
    rfl
  · intro enc h now st cache h1 h2 h3 h4 hmiss hencst
    have hmods : detectedModalities st = ["structure"] := by
      unfold detectedModalities
      rw [h2, h3, h4]
      rfl
    simp only [nodeEncode, h1, h2, h3, h4, hmods, textStep_skip, seqStep_skip,
      ok_bind, imageStep_skip]
    simp only [structStep, if_true, hmiss, hencst]
    rfl

set_option maxRecDepth 4096 in
/-- Witness for C2: both tolerance parts applied to concrete image-only /
structure-only requests with the always-failing encoder. -/
theorem C2_encode_failure_tolerance_witness :
    nodeEncode c2EncBad id 0 c2ReqImg emptyEmbCache = Except.ok
      ({ c2ReqImg with
        input_type := "image", search_case := 2, has_text := false,
        has_modal := true, primary_modality := some (Sum.inl "image"),
        modalities := ["image"], vectors := {}, sparse_vectors := [],
        concepts := [], cache_hits := [("image", false)] },
        (getEmbedding emptyEmbCache
          (imgCacheKey id (c2ReqImg.input_image_path.getD "")) 0).2) ∧
    nodeEncode c2EncBad id 0 c2ReqStruct emptyEmbCache = Except.ok
      ({ c2ReqStruct with
        input_type := "structure", search_case := 2, has_text := false,
        has_modal := true, primary_modality := some (Sum.inl "structure"),
        modalities := ["structure"], vectors := {}, sparse_vectors := [],
        concepts := [], cache_hits := [("structure", false)] },
        (getEmbedding emptyEmbCache
          (structCacheKey id (c2ReqStruct.input_structure_path.getD "")) 0).2) :=
  ⟨C2_encode_failure_tolerance.1 c2EncBad id 0 c2ReqImg emptyEmbCache
      (by decide) (by decide) (by decide) (by decide) rfl rfl,
   C2_encode_failure_tolerance.2.1 c2EncBad id 0 c2ReqStruct emptyEmbCache
      (by decide) (by decide) (by decide) (by decide) rfl rfl⟩

end BioDiscovery
